import Mathlib

/-!
# MJPEG frame conversion drivers (`source/convert_jpeg.cc`)

A shallow embedding of the conversion entry points of `convert_jpeg.cc`:
the row-batch callbacks with their destination cursors, the size probe
`MJPGSize`, the single-threaded drivers `MJPGToI420`, `MJPGToNV21`,
`MJPGToARGB`, and the partitioned driver `MJPGToNV21_MultiThD`.

Conventions of the embedding.

* Pointers are addresses (`Int`); the destination planes live in a byte
  memory `Mem`.  The `int` computations of the cursor updates (`rows * stride`,
  `rows + 1`, `h - rows`) are 32-bit: their results are reduced to the range of
  `int` by two's-complement wrap-around (`wrapInt32`), which is what the compiled
  code does on overflow.  Adding the resulting offset to a pointer is an addition
  of addresses.
* The JPEG decoder class, the pixel kernels (`I420Copy`, `I422ToNV21`, ...),
  thread creation and the processor count are external to the file under
  study; they enter every definition as parameters (`MJpegDecoder`, `Platform`).
* Every externally visible action is appended to a log, so that "nothing was
  loaded / spawned / converted" is a statement about the returned `World`.
-/

namespace libyuv

/-! ## External collaborators -/

/-- Modelled from the spec: the colorspace of a decoded frame is one of
`YCbCr`, `Grayscale` or something else; the enumeration itself is declared in
`libyuv/mjpeg_decoder.h`, which is not part of the file under study. -/
inductive ColorSpace
  | kColorSpaceYCbCr
  | kColorSpaceGrayscale
  | kColorSpaceOther
  deriving DecidableEq, Repr

/-- Byte memory holding the destination planes. -/
abbrev Mem := Int → Nat

/-- Bytes of one source plane of a row batch, as handed over by the decoder. -/
abbrev Plane := List Nat

/-- The pixel kernels called by the row-batch callbacks. -/
inductive Kernel
  | I420Copy | I422ToNV21 | I422ToI420 | I444ToI420 | I411ToI420 | I400ToI420
  | I420ToARGB | I422ToARGB | I444ToARGB | I411ToARGB | I400ToARGB
  deriving DecidableEq, Repr

/-- One call of a pixel kernel with the arguments the callback passes:
source planes and strides, destination pointers and strides, width, rows. -/
structure KernelCall where
  fn : Kernel
  src : List Plane
  src_stride : List Int
  dst : List Int
  dst_stride : List Int
  width : Int
  height : Int
  deriving DecidableEq, Repr

/-- The row-batch callbacks of the file, as names (used in the log). -/
inductive Callback
  | JpegCopyI420 | JpegI422ToI420 | JpegI444ToI420 | JpegI411ToI420 | JpegI400ToI420
  | JpegI422ToNV21 | JpegI422ToNV21_flag
  | JpegI420ToARGB | JpegI422ToARGB | JpegI444ToARGB | JpegI411ToARGB | JpegI400ToARGB
  deriving DecidableEq, Repr

/-- Externally visible actions of the drivers. -/
inductive Event
  | LoadFrame (sample_size : Nat)
  | UnloadFrame
  | DecodeToCallback (fn : Callback) (dst_width dst_height : Int)
  | Invoke (fn : Callback) (rows : Int)
  | Call (c : KernelCall)
  | pthread_create (id : Nat) (ok : Bool)
  | pthread_join (id : Nat)
  | sched_setaffinity (id : Nat) (cpu : Int)
  deriving DecidableEq, Repr

/-- Destination memory together with the log of actions performed so far. -/
structure World where
  mem : Mem
  log : List Event

/-- Append one action to the log. -/
def World.emit (s : World) (e : Event) : World :=
  { s with log := s.log ++ [e] }

/-- A row batch handed from the decoder to a callback: `data`, `strides`, `rows`. -/
structure RowBatch where
  data : List Plane
  strides : List Int
  rows : Int
  deriving DecidableEq, Repr

/-- What a decoder instance reports once `LoadFrame` has succeeded: the getters
used by the drivers, and for each decode entry point the row batches it hands to
the callback (with the partition flag in the multi-threaded variant) followed by
its boolean result. -/
structure Frame where
  GetWidth : Int
  GetHeight : Int
  GetColorSpace : ColorSpace
  GetNumComponents : Int
  GetVertSampFactor : Nat → Int
  GetHorizSampFactor : Nat → Int
  DecodeToCallback : Int → Int → List RowBatch × Bool
  DecodeToCallbackMultiThD : Nat → Nat → Int → Int → List (RowBatch × Int) × Bool

/-- The decoder class as the drivers see it: `LoadFrame(sample, sample_size)`
either fails or yields a loaded frame. -/
structure MJpegDecoder where
  LoadFrame : List Nat → Nat → Option Frame

/-- Everything else the file takes from its environment: the unknown-size
sentinel (a constant of an absent header), the semantics of the pixel kernels on
memory, whether `pthread_create` succeeds for a given worker, and the number of
configured processors returned by `sysconf`. -/
structure Platform where
  kUnknownDataSize : Nat
  kernel : KernelCall → Mem → Mem
  pthread_create : Nat → Bool
  nprocessors : Int

/-- Perform one kernel call on the destination memory and log it. -/
def World.call (P : Platform) (c : KernelCall) (s : World) : World :=
  { mem := P.kernel c s.mem, log := s.log ++ [Event.Call c] }

/-- The element `data[i]` of a callback's plane array. -/
def dataAt (data : List Plane) (i : Nat) : Plane := data.getD i []

/-- The element `strides[i]` of a callback's stride array. -/
def strideAt (strides : List Int) (i : Nat) : Int := strides.getD i 0

/-! ## Destination cursors -/

/-- Cursor of a planar three-plane destination (`struct I420Buffers`). -/
structure I420Buffers where
  y : Int
  y_stride : Int
  u : Int
  u_stride : Int
  v : Int
  v_stride : Int
  w : Int
  h : Int
  deriving DecidableEq, Repr

/-- Cursor of a semiplanar destination (`NV21Buffers`, initialised in the source
as `{ y, y_stride, uv, uv_stride, dw, dh }`). -/
structure NV21Buffers where
  y : Int
  y_stride : Int
  uv : Int
  uv_stride : Int
  w : Int
  h : Int
  deriving DecidableEq, Repr

/-- Cursor of a packed destination (`struct ARGBBuffers`). -/
structure ARGBBuffers where
  argb : Int
  argb_stride : Int
  w : Int
  h : Int
  deriving DecidableEq, Repr

/-- Reduction of an integer to the range of a 32-bit `int`, two's-complement
wrap-around. -/
def wrapInt32 (x : Int) : Int := (x + 2147483648) % 4294967296 - 2147483648

/-- The integer lies in the range of a 32-bit `int`. -/
def inInt32 (x : Int) : Bool := decide (-2147483648 ≤ x) && decide (x < 2147483648)

/-- The cursor update written at the end of every I420-destination callback:
`y += rows * y_stride`, `u += ((rows + 1) >> 1) * u_stride`, likewise `v`,
`h -= rows`, each right-hand side computed in `int`. -/
def I420Buffers.advance (dest : I420Buffers) (rows : Int) : I420Buffers :=
  { dest with
    y := dest.y + wrapInt32 (rows * dest.y_stride)
    u := dest.u + wrapInt32 ((wrapInt32 (rows + 1) >>> 1) * dest.u_stride)
    v := dest.v + wrapInt32 ((wrapInt32 (rows + 1) >>> 1) * dest.v_stride)
    h := wrapInt32 (dest.h - rows) }

/-- The cursor update written at the end of both NV21 callbacks:
`y += rows * y_stride`, `uv += rows * uv_stride`, `h -= rows`, each right-hand
side computed in `int`. -/
def NV21Buffers.advance (dest : NV21Buffers) (rows : Int) : NV21Buffers :=
  { dest with
    y := dest.y + wrapInt32 (rows * dest.y_stride)
    uv := dest.uv + wrapInt32 (rows * dest.uv_stride)
    h := wrapInt32 (dest.h - rows) }

/-- The cursor update written at the end of every ARGB callback:
`argb += rows * argb_stride`, `h -= rows`, each right-hand side computed in
`int`. -/
def ARGBBuffers.advance (dest : ARGBBuffers) (rows : Int) : ARGBBuffers :=
  { dest with
    argb := dest.argb + wrapInt32 (rows * dest.argb_stride)
    h := wrapInt32 (dest.h - rows) }

/-- Kernel call of a three-plane source into an I420 destination. -/
def i420Call (fn : Kernel) (dest : I420Buffers) (data : List Plane) (strides : List Int)
    (rows : Int) : KernelCall :=
  { fn := fn
    src := [dataAt data 0, dataAt data 1, dataAt data 2]
    src_stride := [strideAt strides 0, strideAt strides 1, strideAt strides 2]
    dst := [dest.y, dest.u, dest.v]
    dst_stride := [dest.y_stride, dest.u_stride, dest.v_stride]
    width := dest.w
    height := rows }

/-- Kernel call of a three-plane source into an NV21 destination. -/
def nv21Call (dest : NV21Buffers) (data : List Plane) (strides : List Int)
    (rows : Int) : KernelCall :=
  { fn := Kernel.I422ToNV21
    src := [dataAt data 0, dataAt data 1, dataAt data 2]
    src_stride := [strideAt strides 0, strideAt strides 1, strideAt strides 2]
    dst := [dest.y, dest.uv]
    dst_stride := [dest.y_stride, dest.uv_stride]
    width := dest.w
    height := rows }

/-- Kernel call of a three-plane source into an ARGB destination. -/
def argbCall (fn : Kernel) (dest : ARGBBuffers) (data : List Plane) (strides : List Int)
    (rows : Int) : KernelCall :=
  { fn := fn
    src := [dataAt data 0, dataAt data 1, dataAt data 2]
    src_stride := [strideAt strides 0, strideAt strides 1, strideAt strides 2]
    dst := [dest.argb]
    dst_stride := [dest.argb_stride]
    width := dest.w
    height := rows }

/-! ## Row-batch callbacks -/

/-- Callback `JpegCopyI420` (source lines 51-67): calls `I420Copy` on the batch at the current cursor, then advances the cursor. -/
def JpegCopyI420 (P : Platform) (dest : I420Buffers) (data : List Plane)
    (strides : List Int) (rows : Int) (s : World) : I420Buffers × World :=
  (dest.advance rows, s.call P (i420Call Kernel.I420Copy dest data strides rows))

/-- Callback `JpegI422ToNV21_flag` (source lines 69-86): calls `I422ToNV21` only when
`skip_flag == 0`; the cursor is advanced in either case. -/
def JpegI422ToNV21_flag (P : Platform) (dest : NV21Buffers) (data : List Plane)
    (strides : List Int) (rows : Int) (skip_flag : Int) (s : World) : NV21Buffers × World :=
  let s1 := if skip_flag == 0 then s.call P (nv21Call dest data strides rows) else s
  (dest.advance rows, s1)

/-- Callback `JpegI422ToNV21` (source lines 90-104): calls `I422ToNV21` on the batch at the current cursor, then advances the cursor. -/
def JpegI422ToNV21 (P : Platform) (dest : NV21Buffers) (data : List Plane)
    (strides : List Int) (rows : Int) (s : World) : NV21Buffers × World :=
  (dest.advance rows, s.call P (nv21Call dest data strides rows))

/-- Callback `JpegI422ToI420` (source lines 109-125): calls `I422ToI420` on the batch at the current cursor, then advances the cursor. -/
def JpegI422ToI420 (P : Platform) (dest : I420Buffers) (data : List Plane)
    (strides : List Int) (rows : Int) (s : World) : I420Buffers × World :=
  (dest.advance rows, s.call P (i420Call Kernel.I422ToI420 dest data strides rows))

/-- Callback `JpegI444ToI420` (source lines 127-143): calls `I444ToI420` on the batch at the current cursor, then advances the cursor. -/
def JpegI444ToI420 (P : Platform) (dest : I420Buffers) (data : List Plane)
    (strides : List Int) (rows : Int) (s : World) : I420Buffers × World :=
  (dest.advance rows, s.call P (i420Call Kernel.I444ToI420 dest data strides rows))

/-- Callback `JpegI411ToI420` (source lines 145-161): calls `I411ToI420` on the batch at the current cursor, then advances the cursor. -/
def JpegI411ToI420 (P : Platform) (dest : I420Buffers) (data : List Plane)
    (strides : List Int) (rows : Int) (s : World) : I420Buffers × World :=
  (dest.advance rows, s.call P (i420Call Kernel.I411ToI420 dest data strides rows))

/-- Callback `JpegI400ToI420` (source lines 163-177): calls `I400ToI420` with the
single source plane `data[0]`, then advances the cursor. -/
def JpegI400ToI420 (P : Platform) (dest : I420Buffers) (data : List Plane)
    (strides : List Int) (rows : Int) (s : World) : I420Buffers × World :=
  (dest.advance rows,
    s.call P
      { fn := Kernel.I400ToI420
        src := [dataAt data 0]
        src_stride := [strideAt strides 0]
        dst := [dest.y, dest.u, dest.v]
        dst_stride := [dest.y_stride, dest.u_stride, dest.v_stride]
        width := dest.w
        height := rows })

/-- Callback `JpegI420ToARGB` (source lines 455-467): calls `I420ToARGB` on the batch at the current cursor, then advances the cursor. -/
def JpegI420ToARGB (P : Platform) (dest : ARGBBuffers) (data : List Plane)
    (strides : List Int) (rows : Int) (s : World) : ARGBBuffers × World :=
  (dest.advance rows, s.call P (argbCall Kernel.I420ToARGB dest data strides rows))

/-- Callback `JpegI422ToARGB` (source lines 469-481): calls `I422ToARGB` on the batch at the current cursor, then advances the cursor. -/
def JpegI422ToARGB (P : Platform) (dest : ARGBBuffers) (data : List Plane)
    (strides : List Int) (rows : Int) (s : World) : ARGBBuffers × World :=
  (dest.advance rows, s.call P (argbCall Kernel.I422ToARGB dest data strides rows))

/-- Callback `JpegI444ToARGB` (source lines 483-495): calls `I444ToARGB` on the batch at the current cursor, then advances the cursor. -/
def JpegI444ToARGB (P : Platform) (dest : ARGBBuffers) (data : List Plane)
    (strides : List Int) (rows : Int) (s : World) : ARGBBuffers × World :=
  (dest.advance rows, s.call P (argbCall Kernel.I444ToARGB dest data strides rows))

/-- Callback `JpegI411ToARGB` (source lines 497-509): calls `I411ToARGB` on the batch at the current cursor, then advances the cursor. -/
def JpegI411ToARGB (P : Platform) (dest : ARGBBuffers) (data : List Plane)
    (strides : List Int) (rows : Int) (s : World) : ARGBBuffers × World :=
  (dest.advance rows, s.call P (argbCall Kernel.I411ToARGB dest data strides rows))

/-- Callback `JpegI400ToARGB` (source lines 511-521): calls `I400ToARGB` with the
single source plane `data[0]`, then advances the cursor. -/
def JpegI400ToARGB (P : Platform) (dest : ARGBBuffers) (data : List Plane)
    (strides : List Int) (rows : Int) (s : World) : ARGBBuffers × World :=
  (dest.advance rows,
    s.call P
      { fn := Kernel.I400ToARGB
        src := [dataAt data 0]
        src_stride := [strideAt strides 0]
        dst := [dest.argb]
        dst_stride := [dest.argb_stride]
        width := dest.w
        height := rows })

/-! ## Layout tests of the dispatch chains

The five conditions tested by the `if` / `else if` chains, named after the
comments that introduce them in the source. -/

/-- Condition commented `YUV420`. -/
def isYUV420 (d : Frame) : Bool :=
  d.GetColorSpace == ColorSpace.kColorSpaceYCbCr &&
  d.GetNumComponents == 3 &&
  d.GetVertSampFactor 0 == 2 &&
  d.GetHorizSampFactor 0 == 2 &&
  d.GetVertSampFactor 1 == 1 &&
  d.GetHorizSampFactor 1 == 1 &&
  d.GetVertSampFactor 2 == 1 &&
  d.GetHorizSampFactor 2 == 1

/-- Condition commented `YUV422`. -/
def isYUV422 (d : Frame) : Bool :=
  d.GetColorSpace == ColorSpace.kColorSpaceYCbCr &&
  d.GetNumComponents == 3 &&
  d.GetVertSampFactor 0 == 1 &&
  d.GetHorizSampFactor 0 == 2 &&
  d.GetVertSampFactor 1 == 1 &&
  d.GetHorizSampFactor 1 == 1 &&
  d.GetVertSampFactor 2 == 1 &&
  d.GetHorizSampFactor 2 == 1

/-- Condition commented `YUV444`. -/
def isYUV444 (d : Frame) : Bool :=
  d.GetColorSpace == ColorSpace.kColorSpaceYCbCr &&
  d.GetNumComponents == 3 &&
  d.GetVertSampFactor 0 == 1 &&
  d.GetHorizSampFactor 0 == 1 &&
  d.GetVertSampFactor 1 == 1 &&
  d.GetHorizSampFactor 1 == 1 &&
  d.GetVertSampFactor 2 == 1 &&
  d.GetHorizSampFactor 2 == 1

/-- Condition commented `YUV411`. -/
def isYUV411 (d : Frame) : Bool :=
  d.GetColorSpace == ColorSpace.kColorSpaceYCbCr &&
  d.GetNumComponents == 3 &&
  d.GetVertSampFactor 0 == 1 &&
  d.GetHorizSampFactor 0 == 4 &&
  d.GetVertSampFactor 1 == 1 &&
  d.GetHorizSampFactor 1 == 1 &&
  d.GetVertSampFactor 2 == 1 &&
  d.GetHorizSampFactor 2 == 1

/-- Condition commented `YUV400`. -/
def isYUV400 (d : Frame) : Bool :=
  d.GetColorSpace == ColorSpace.kColorSpaceGrayscale &&
  d.GetNumComponents == 1 &&
  d.GetVertSampFactor 0 == 1 &&
  d.GetHorizSampFactor 0 == 1

/-! ## Driving the decoder -/

/-- The decoder's `DecodeToCallback(fn, opaque, dst_width, dst_height)`: it hands
its row batches to `fn` one after the other, each invocation updating the cursor
behind the opaque pointer and the world, and then reports its result. -/
def DecodeToCallback {β : Type} (d : Frame) (name : Callback)
    (fn : β → List Plane → List Int → Int → World → β × World)
    (dest : β) (dst_width dst_height : Int) (s : World) : Bool × β × World :=
  let r := d.DecodeToCallback dst_width dst_height
  let run := r.1.foldl
    (fun (acc : β × World) (b : RowBatch) =>
      fn acc.1 b.data b.strides b.rows (acc.2.emit (Event.Invoke name b.rows)))
    (dest, s.emit (Event.DecodeToCallback name dst_width dst_height))
  (r.2, run)

/-- Size probe `MJPGSize`; `width` and `height` are the values found behind the
two output pointers on entry, the result carries the values found there on
return. -/
def MJPGSize (mjpeg_decoder : MJpegDecoder) (sample : List Nat) (sample_size : Nat)
    (width height : Int) : Int × Int × Int :=
  match mjpeg_decoder.LoadFrame sample sample_size with
  | some d => (0, d.GetWidth, d.GetHeight)
  | none => (-1, width, height)

/-- Entry point `MJPGToI420` (source lines 196-279).  A failed `LoadFrame` skips both
`if (ret ...)` blocks and reaches `return ret ? 0 : 1`. -/
def MJPGToI420 (P : Platform) (mjpeg_decoder : MJpegDecoder)
    (sample : List Nat) (sample_size : Nat)
    (y y_stride u u_stride v v_stride w h dw dh : Int) (s : World) : Int × World :=
  if sample_size == P.kUnknownDataSize then
    (-1, s)
  else
    let s1 := s.emit (Event.LoadFrame sample_size)
    match mjpeg_decoder.LoadFrame sample sample_size with
    | none => (1, s1)
    | some d =>
      if d.GetWidth != w || d.GetHeight != h then
        (1, s1.emit Event.UnloadFrame)
      else
        let bufs : I420Buffers := ⟨y, y_stride, u, u_stride, v, v_stride, dw, dh⟩
        if isYUV420 d then
          let r := DecodeToCallback d Callback.JpegCopyI420 (JpegCopyI420 P) bufs dw dh s1
          (if r.1 then 0 else 1, r.2.2)
        else if isYUV422 d then
          let r := DecodeToCallback d Callback.JpegI422ToI420 (JpegI422ToI420 P) bufs dw dh s1
          (if r.1 then 0 else 1, r.2.2)
        else if isYUV444 d then
          let r := DecodeToCallback d Callback.JpegI444ToI420 (JpegI444ToI420 P) bufs dw dh s1
          (if r.1 then 0 else 1, r.2.2)
        else if isYUV411 d then
          let r := DecodeToCallback d Callback.JpegI411ToI420 (JpegI411ToI420 P) bufs dw dh s1
          (if r.1 then 0 else 1, r.2.2)
        else if isYUV400 d then
          let r := DecodeToCallback d Callback.JpegI400ToI420 (JpegI400ToI420 P) bufs dw dh s1
          (if r.1 then 0 else 1, r.2.2)
        else
          (1, s1.emit Event.UnloadFrame)

/-- Number of workers of the partitioned driver. -/
def THREAD_NUM : Nat := 3

/-- Entry point `MJPGToNV21` (source lines 285-329).  It ends in
`if (ret == true) return 0; else return -1;`. -/
def MJPGToNV21 (P : Platform) (mjpeg_decoder : MJpegDecoder)
    (sample : List Nat) (sample_size : Nat)
    (y y_stride uv uv_stride w h dw dh : Int) (s : World) : Int × World :=
  if sample_size == P.kUnknownDataSize then
    (-1, s)
  else
    let s1 := s.emit (Event.LoadFrame sample_size)
    match mjpeg_decoder.LoadFrame sample sample_size with
    | none => (-1, s1)
    | some d =>
      if d.GetWidth != w || d.GetHeight != h then
        (1, s1.emit Event.UnloadFrame)
      else
        let bufs : NV21Buffers := ⟨y, y_stride, uv, uv_stride, dw, dh⟩
        if isYUV422 d then
          let r := DecodeToCallback d Callback.JpegI422ToNV21 (JpegI422ToNV21 P) bufs dw dh s1
          (if r.1 == true then 0 else -1, r.2.2)
        else
          (1, s1.emit Event.UnloadFrame)

/-- Entry point `MJPGToARGB` (source lines 526-607), built like `MJPGToI420`. -/
def MJPGToARGB (P : Platform) (mjpeg_decoder : MJpegDecoder)
    (sample : List Nat) (sample_size : Nat)
    (argb argb_stride w h dw dh : Int) (s : World) : Int × World :=
  if sample_size == P.kUnknownDataSize then
    (-1, s)
  else
    let s1 := s.emit (Event.LoadFrame sample_size)
    match mjpeg_decoder.LoadFrame sample sample_size with
    | none => (1, s1)
    | some d =>
      if d.GetWidth != w || d.GetHeight != h then
        (1, s1.emit Event.UnloadFrame)
      else
        let bufs : ARGBBuffers := ⟨argb, argb_stride, dw, dh⟩
        if isYUV420 d then
          let r := DecodeToCallback d Callback.JpegI420ToARGB (JpegI420ToARGB P) bufs dw dh s1
          (if r.1 then 0 else 1, r.2.2)
        else if isYUV422 d then
          let r := DecodeToCallback d Callback.JpegI422ToARGB (JpegI422ToARGB P) bufs dw dh s1
          (if r.1 then 0 else 1, r.2.2)
        else if isYUV444 d then
          let r := DecodeToCallback d Callback.JpegI444ToARGB (JpegI444ToARGB P) bufs dw dh s1
          (if r.1 then 0 else 1, r.2.2)
        else if isYUV411 d then
          let r := DecodeToCallback d Callback.JpegI411ToARGB (JpegI411ToARGB P) bufs dw dh s1
          (if r.1 then 0 else 1, r.2.2)
        else if isYUV400 d then
          let r := DecodeToCallback d Callback.JpegI400ToARGB (JpegI400ToARGB P) bufs dw dh s1
          (if r.1 then 0 else 1, r.2.2)
        else
          (1, s1.emit Event.UnloadFrame)

/-! ## Partitioned multi-threaded driver -/

/-- CPU index that `set_thread_affinity(cpu_num)` puts into the affinity mask:
the request, replaced by `0` when it is not below the processor count. -/
def set_thread_affinity (P : Platform) (cpu_num : Int) : Int :=
  let num := P.nprocessors
  if cpu_num >= num then 0 else cpu_num

/-- Parameter block of one worker (`decode_multi_thd_s`): its index, its own
loaded decoder and its own copy of the destination cursor. -/
structure decode_multi_thd_s where
  id : Nat
  mjpeg_decoder : Frame
  bufs : NV21Buffers

/-- One action of a worker thread: pinning itself to a CPU, or one callback
invocation made by the decoder with its partition flag. -/
inductive Step
  | affinity (cpu_num : Int)
  | row (b : RowBatch) (skip_flag : Int)
  deriving DecidableEq, Repr

/-- Thread entry `DecodeToCallbackMultiThD(arg)` as the sequence of actions the
worker performs: `set_thread_affinity(id + 1)`, then the decoder's
`DecodeToCallbackMultiThD(pth_para, THREAD_NUM, &JpegI422ToNV21_flag, &bufs,
bufs.w, bufs.h)`, whose result is discarded. -/
def DecodeToCallbackMultiThD (pth_para : decode_multi_thd_s) : List Step :=
  Step.affinity ((pth_para.id : Int) + 1) ::
    (pth_para.mjpeg_decoder.DecodeToCallbackMultiThD pth_para.id THREAD_NUM
      pth_para.bufs.w pth_para.bufs.h).1.map (fun bf => Step.row bf.1 bf.2)

/-- A created worker thread: its index, its cursor and what it still has to do. -/
structure Thread where
  id : Nat
  bufs : NV21Buffers
  pending : List Step
  deriving DecidableEq, Repr

/-- Execute the next action of a thread on the shared world. -/
def Thread.step (P : Platform) (t : Thread) (s : World) : Thread × World :=
  match t.pending with
  | [] => (t, s)
  | Step.affinity c :: rest =>
    ({ t with pending := rest },
      s.emit (Event.sched_setaffinity t.id (set_thread_affinity P c)))
  | Step.row b f :: rest =>
    let r := JpegI422ToNV21_flag P t.bufs b.data b.strides b.rows f
      (s.emit (Event.Invoke Callback.JpegI422ToNV21_flag b.rows))
    ({ t with bufs := r.1, pending := rest }, r.2)

/-- Execute a list of actions of one thread, starting from cursor `bufs`. -/
def runSteps (P : Platform) (id : Nat) : List Step → NV21Buffers → World → NV21Buffers × World
  | [], bufs, s => (bufs, s)
  | Step.affinity c :: rest, bufs, s =>
    runSteps P id rest bufs (s.emit (Event.sched_setaffinity id (set_thread_affinity P c)))
  | Step.row b f :: rest, bufs, s =>
    let r := JpegI422ToNV21_flag P bufs b.data b.strides b.rows f
      (s.emit (Event.Invoke Callback.JpegI422ToNV21_flag b.rows))
    runSteps P id rest r.1 r.2

/-- Let the thread with index `i` perform its next action. -/
def stepThread (P : Platform) (i : Nat) : List Thread → World → List Thread × World
  | [], s => ([], s)
  | t :: ts, s =>
    if t.id == i then
      let r := t.step P s
      (r.1 :: ts, r.2)
    else
      let r := stepThread P i ts s
      (t :: r.1, r.2)

/-- Run the created threads under a schedule: each entry names the thread that
performs its next action. -/
def runSchedule (P : Platform) : List Nat → List Thread → World → List Thread × World
  | [], ts, s => (ts, s)
  | i :: sched, ts, s =>
    let r := stepThread P i ts s
    runSchedule P sched r.1 r.2

/-- The call `pthread_join(tid[i], NULL)`: it returns once the thread with index
`i` has performed all its remaining actions. -/
def pthread_join (P : Platform) (i : Nat) : List Thread → World → List Thread × World
  | [], s => ([], s.emit (Event.pthread_join i))
  | t :: ts, s =>
    if t.id == i then
      let r := runSteps P t.id t.pending t.bufs s
      ({ t with bufs := r.1, pending := [] } :: ts, r.2.emit (Event.pthread_join i))
    else
      let r := pthread_join P i ts s
      (t :: r.1, r.2)

/-- The join loop `for (i = 0; i < THREAD_NUM; i++) pthread_join(tid[i], NULL)`. -/
def joinLoop (P : Platform) : List Nat → List Thread → World → List Thread × World
  | [], ts, s => (ts, s)
  | i :: is, ts, s =>
    let r := pthread_join P i ts s
    joinLoop P is r.1 r.2

/-- State carried by the creation loop of `MJPGToNV21_MultiThD`: the flag `ret`,
the world, and the threads created so far. -/
structure LoopState where
  ret : Bool
  world : World
  threads : List Thread

/-- The creation loop `for (i = THREAD_NUM - 1; i >= 0; i--)`, over the list of
indices still to visit; `Except.error` is a `return` from inside the loop. -/
def createLoop (P : Platform) (decoder_th : Nat → MJpegDecoder)
    (sample : List Nat) (sample_size : Nat) (w h : Int) (bufs : NV21Buffers) :
    List Nat → LoopState → Except (Int × LoopState) LoopState
  | [], st => Except.ok st
  | i :: is, st =>
    let s1 := st.world.emit (Event.LoadFrame sample_size)
    match (decoder_th i).LoadFrame sample sample_size with
    | none => createLoop P decoder_th sample sample_size w h bufs is
        { st with ret := false, world := s1 }
    | some d =>
      if d.GetWidth != w || d.GetHeight != h then
        Except.error (1, { st with ret := true, world := s1.emit Event.UnloadFrame })
      else if isYUV422 d then
        if P.pthread_create i then
          createLoop P decoder_th sample sample_size w h bufs is
            { ret := true
              world := s1.emit (Event.pthread_create i true)
              threads := st.threads ++
                [{ id := i, bufs := bufs, pending := DecodeToCallbackMultiThD ⟨i, d, bufs⟩ }] }
        else
          Except.error (-1,
            { st with ret := true, world := s1.emit (Event.pthread_create i false) })
      else
        Except.error (1, { st with ret := true, world := s1.emit Event.UnloadFrame })

/-- Result of the partitioned driver: the returned status, the world at return,
and the threads the call created with what each still has to do at return. -/
structure MultiThDResult where
  status : Int
  world : World
  threads : List Thread

/-- Entry point `MJPGToNV21_MultiThD` (source lines 371-443).  `decoder_th i` is
the decoder instance of worker `i`; `ret` starts as `true` (`bool ret = -1`).
`sched` is the interleaving of the workers' actions, one callback invocation at a
time, that happens before the join loop (on the paths that return from inside
the creation loop: before the return); the join loop then lets each thread
finish.  Joining an index for which no thread was created does nothing in this
model.  The main thread never touches destination memory, so the log simply
lists the workers' actions after those of the creation loop. -/
def MJPGToNV21_MultiThD (P : Platform) (decoder_th : Nat → MJpegDecoder) (sched : List Nat)
    (sample : List Nat) (sample_size : Nat)
    (y y_stride uv uv_stride w h dw dh : Int) (s : World) : MultiThDResult :=
  if sample_size == P.kUnknownDataSize then
    ⟨-1, s, []⟩
  else
    let bufs : NV21Buffers := ⟨y, y_stride, uv, uv_stride, dw, dh⟩
    match createLoop P decoder_th sample sample_size w h bufs
        (List.range THREAD_NUM).reverse ⟨true, s, []⟩ with
    | Except.error (status, st) =>
      let r := runSchedule P sched st.threads st.world
      ⟨status, r.2, r.1⟩
    | Except.ok st =>
      let r := runSchedule P sched st.threads st.world
      let j := joinLoop P (List.range THREAD_NUM) r.1 r.2
      ⟨if st.ret == true then 0 else -1, j.2, j.1⟩

/-! ## Concrete scenarios

A reference kernel and small decoders, used to evaluate the drivers on concrete
inputs. -/

/-- Store `bytes` at consecutive addresses starting at `dst`. -/
def writeRow (dst : Int) (bytes : List Nat) (m : Mem) : Mem :=
  fun a => if dst ≤ a ∧ a < dst + bytes.length then bytes.getD (a - dst).toNat 0 else m a

/-- Row `r` of a source plane: `n` bytes starting at offset `r * stride`. -/
def planeRow (p : Plane) (stride : Int) (r n : Nat) : List Nat :=
  (List.range n).map (fun c => p.getD ((r * stride).toNat + c) 0)

/-- Row `r` of the interleaved chroma plane: `V`, `U` pairs. -/
def chromaRow (pu pv : Plane) (su sv : Int) (r n : Nat) : List Nat :=
  ((List.range n).map
    (fun c => [pv.getD ((r * sv).toNat + c) 0, pu.getD ((r * su).toNat + c) 0])).flatten

/-- Modelled from the spec: a pixel kernel is a pure function of the source
planes, strides and row count that writes `rowCount` rows of `targetWidth`
columns into the destination planes; the kernels themselves (here `I422ToNV21`)
are outside the file under study.  This reference kernel copies the luma rows
into the first destination plane and, when a second destination plane and
chroma sources are given, stores one row of interleaved `V`, `U` bytes per luma
row into it. -/
def refKernel (c : KernelCall) (m : Mem) : Mem :=
  (List.range c.height.toNat).foldl
    (fun (m : Mem) (r : Nat) =>
      let m1 := writeRow (c.dst.getD 0 0 + (r : Int) * c.dst_stride.getD 0 0)
        (planeRow (c.src.getD 0 []) (c.src_stride.getD 0 0) r c.width.toNat) m
      if c.fn = Kernel.I422ToNV21 then
        writeRow (c.dst.getD 1 0 + (r : Int) * c.dst_stride.getD 1 0)
          (chromaRow (c.src.getD 1 []) (c.src.getD 2 []) (c.src_stride.getD 1 0)
            (c.src_stride.getD 2 0) r ((c.width.toNat + 1) / 2)) m1
      else m1)
    m

/-- A platform with the reference kernel, four processors, and thread creation
that always succeeds. -/
def demoPlatform : Platform :=
  { kUnknownDataSize := 0xFFFFFFFF
    kernel := refKernel
    pthread_create := fun _ => true
    nprocessors := 4 }

/-- Two one-row batches of a 2x2 frame with three source planes. -/
def demoBatches : List RowBatch :=
  [{ data := [[10, 11], [20], [30]], strides := [2, 1, 1], rows := 1 },
   { data := [[12, 13], [21], [31]], strides := [2, 1, 1], rows := 1 }]

/-- A loaded 2x2 frame with the given colorspace, component count and sampling
factors of component 0; components 1 and 2 report factors `1`.  Worker `0` owns
the first batch, worker `1` the second, worker `2` none. -/
def demoFrame (cs : ColorSpace) (n v0 h0 : Int) (ok : Bool) : Frame :=
  { GetWidth := 2
    GetHeight := 2
    GetColorSpace := cs
    GetNumComponents := n
    GetVertSampFactor := fun i => if i = 0 then v0 else 1
    GetHorizSampFactor := fun i => if i = 0 then h0 else 1
    DecodeToCallback := fun _ _ => (demoBatches, ok)
    DecodeToCallbackMultiThD := fun id _ _ _ =>
      (demoBatches.zip (if id = 0 then [0, 1] else if id = 1 then [1, 0] else [1, 1]), ok) }

/-- A decoder that loads the given frame whatever the sample. -/
def demoDecoder (d : Frame) : MJpegDecoder :=
  { LoadFrame := fun _ _ => some d }

/-- A decoder whose `LoadFrame` fails. -/
def failingDecoder : MJpegDecoder :=
  { LoadFrame := fun _ _ => none }

/-- Memory filled with zero and an empty log. -/
def emptyWorld : World := { mem := fun _ => 0, log := [] }

/-! ## The dispatch chains as tables -/

/-- The chain of `MJPGToI420`: its conditions in source order, each with the
callback its branch passes to `DecodeToCallback`. -/
def chainI420 : List ((Frame → Bool) × Callback) :=
  [(isYUV420, Callback.JpegCopyI420),
   (isYUV422, Callback.JpegI422ToI420),
   (isYUV444, Callback.JpegI444ToI420),
   (isYUV411, Callback.JpegI411ToI420),
   (isYUV400, Callback.JpegI400ToI420)]

/-- The chain of `MJPGToARGB`, likewise. -/
def chainARGB : List ((Frame → Bool) × Callback) :=
  [(isYUV420, Callback.JpegI420ToARGB),
   (isYUV422, Callback.JpegI422ToARGB),
   (isYUV444, Callback.JpegI444ToARGB),
   (isYUV411, Callback.JpegI411ToARGB),
   (isYUV400, Callback.JpegI400ToARGB)]

/-- What an `if` / `else if` chain selects: the callback of the first condition
that holds, if any. -/
def selectConverter (d : Frame) : List ((Frame → Bool) × Callback) → Option Callback
  | [] => none
  | e :: rest => if e.1 d then some e.2 else selectConverter d rest

/-- One of the five layout conditions holds. -/
def isSupported (d : Frame) : Bool :=
  isYUV420 d || isYUV422 d || isYUV444 d || isYUV411 d || isYUV400 d

/-- A decode of frame `d` driven with callback `fn` on a fresh I420 cursor, in
the world reached after `LoadFrame`, followed by `return ret ? 0 : 1`. -/
def driveI420 (d : Frame) (name : Callback)
    (fn : I420Buffers → List Plane → List Int → Int → World → I420Buffers × World)
    (sample_size : Nat) (y y_stride u u_stride v v_stride dw dh : Int) (s : World) :
    Int × World :=
  let r := DecodeToCallback d name fn ⟨y, y_stride, u, u_stride, v, v_stride, dw, dh⟩ dw dh
    (s.emit (Event.LoadFrame sample_size))
  (if r.1 then 0 else 1, r.2.2)

/-- A decode of frame `d` driven with callback `fn` on a fresh ARGB cursor, in
the world reached after `LoadFrame`, followed by `return ret ? 0 : 1`. -/
def driveARGB (d : Frame) (name : Callback)
    (fn : ARGBBuffers → List Plane → List Int → Int → World → ARGBBuffers × World)
    (sample_size : Nat) (argb argb_stride dw dh : Int) (s : World) : Int × World :=
  let r := DecodeToCallback d name fn ⟨argb, argb_stride, dw, dh⟩ dw dh
    (s.emit (Event.LoadFrame sample_size))
  (if r.1 then 0 else 1, r.2.2)

/-! ## Vocabulary for comparing the partitioned and the single-threaded run -/

/-- Apply kernel calls to memory, one after the other. -/
def applyCalls (P : Platform) (cs : List KernelCall) (m : Mem) : Mem :=
  cs.foldl (fun m c => P.kernel c m) m

/-- The kernel calls made by `JpegI422ToNV21` over a sequence of row batches,
starting from cursor `bufs`. -/
def callsFrom (bufs : NV21Buffers) : List RowBatch → List KernelCall
  | [] => []
  | b :: bs => nv21Call bufs b.data b.strides b.rows :: callsFrom (bufs.advance b.rows) bs

/-- The kernel calls a worker still has to make: those of its pending callback
invocations whose partition flag is `0`. -/
def pendingCalls (bufs : NV21Buffers) : List Step → List KernelCall
  | [] => []
  | Step.affinity _ :: rest => pendingCalls bufs rest
  | Step.row b f :: rest =>
    (if f == 0 then [nv21Call bufs b.data b.strides b.rows] else []) ++
      pendingCalls (bufs.advance b.rows) rest

/-- The kernel calls all threads together still have to make. -/
def todoAll (ts : List Thread) : List KernelCall :=
  (ts.map (fun t => pendingCalls t.bufs t.pending)).flatten

/-- The partition flags of three workers form a disjoint exact cover: the three
sequences have the same length and at every position exactly one flag is `0`. -/
def exactCover : List Int → List Int → List Int → Bool
  | [], [], [] => true
  | a :: as, b :: bs, c :: cs => ([a, b, c].count 0 == 1) && exactCover as bs cs
  | _, _, _ => false

/-- The entries of `cs` whose flag is `0`. -/
def owned : List KernelCall → List Int → List KernelCall
  | c :: cs, f :: fs => if f == 0 then c :: owned cs fs else owned cs fs
  | _, _ => []

/-! ## Vocabulary for the cursor properties -/

/-- The value `ceil(rows / 2)`, taken as the ceiling of a rational number. -/
def ceilHalf (rows : Int) : Int := ⌈(rows : ℚ) / 2⌉

/-- A run of callback invocations: the decoder hands the batches to `fn` one
after the other (the loop inside `DecodeToCallback`). -/
def invokeAll {β : Type} (name : Callback)
    (fn : β → List Plane → List Int → Int → World → β × World)
    (bs : List RowBatch) (acc : β × World) : β × World :=
  bs.foldl
    (fun (acc : β × World) (b : RowBatch) =>
      fn acc.1 b.data b.strides b.rows (acc.2.emit (Event.Invoke name b.rows)))
    acc

/-- The sum of the row counts of a sequence of batches. -/
def totalRows (bs : List RowBatch) : Int := (bs.map RowBatch.rows).sum

/-- The platform of the concrete scenarios, except that `pthread_create` fails
for worker `0`, the last one the creation loop visits. -/
def spawnFailurePlatform : Platform :=
  { demoPlatform with pthread_create := fun i => i != 0 }

/-- The CPU index selected for worker `id`: the thread entry calls
`set_thread_affinity(pth_para->id + 1)`. -/
def workerCpu (P : Platform) (id : Nat) : Int :=
  set_thread_affinity P ((id : Int) + 1)

/-! ## Early failures of the entry points -/

/-- C1: when `sample_size` is the unknown-size sentinel, each of `MJPGToI420`,
`MJPGToNV21`, `MJPGToNV21_MultiThD` and `MJPGToARGB` returns `-1` and hands back
the world it was given: the log gains no `LoadFrame`, no `pthread_create` and no
callback invocation, no thread exists, and the destination memory is unchanged. -/
theorem unknown_size_returns_minus_one (P : Platform) (mjpeg_decoder : MJpegDecoder)
    (decoder_th : Nat → MJpegDecoder) (sched : List Nat) (sample : List Nat) (sample_size : Nat)
    (y y_stride u u_stride v v_stride uv uv_stride argb argb_stride w h dw dh : Int) (s : World)
    (hsize : sample_size = P.kUnknownDataSize) :
    MJPGToI420 P mjpeg_decoder sample sample_size y y_stride u u_stride v v_stride w h dw dh s
        = (-1, s) ∧
    MJPGToNV21 P mjpeg_decoder sample sample_size y y_stride uv uv_stride w h dw dh s
        = (-1, s) ∧
    MJPGToNV21_MultiThD P decoder_th sched sample sample_size y y_stride uv uv_stride w h dw dh s
        = ⟨-1, s, []⟩ ∧
    MJPGToARGB P mjpeg_decoder sample sample_size argb argb_stride w h dw dh s
        = (-1, s) := by
  subst hsize
  simp [MJPGToI420, MJPGToNV21, MJPGToNV21_MultiThD, MJPGToARGB]

/-- Instance of C1: the sentinel `0xFFFFFFFF` with a decoder that would load a
4:2:2 frame. -/
theorem unknown_size_returns_minus_one_witness :
    (0xFFFFFFFF : Nat) = demoPlatform.kUnknownDataSize ∧
    MJPGToNV21_MultiThD demoPlatform
      (fun _ => demoDecoder (demoFrame ColorSpace.kColorSpaceYCbCr 3 1 2 true)) [0, 1, 2]
      [] 0xFFFFFFFF 0 2 100 2 2 2 2 2 emptyWorld = ⟨-1, emptyWorld, []⟩ :=
  ⟨rfl, (unknown_size_returns_minus_one demoPlatform
    (demoDecoder (demoFrame ColorSpace.kColorSpaceYCbCr 3 1 2 true))
    (fun _ => demoDecoder (demoFrame ColorSpace.kColorSpaceYCbCr 3 1 2 true)) [0, 1, 2]
    [] 0xFFFFFFFF 0 2 0 0 0 0 100 2 0 0 2 2 2 2 emptyWorld rfl).2.2.1⟩

/-- C2: when the frame loads and its reported width or height differs from the
declared `w`, `h`, each of `MJPGToI420`, `MJPGToNV21` and `MJPGToARGB` returns `1`
after `LoadFrame` and `UnloadFrame` only: no decode is driven, no callback is
invoked, and the destination memory is the one given, whatever the colorspace,
component count and sampling factors of the frame are. -/
theorem dimension_mismatch_returns_one (P : Platform) (mjpeg_decoder : MJpegDecoder) (d : Frame)
    (sample : List Nat) (sample_size : Nat)
    (y y_stride u u_stride v v_stride uv uv_stride argb argb_stride w h dw dh : Int) (s : World)
    (hsize : sample_size ≠ P.kUnknownDataSize)
    (hload : mjpeg_decoder.LoadFrame sample sample_size = some d)
    (hdim : d.GetWidth ≠ w ∨ d.GetHeight ≠ h) :
    MJPGToI420 P mjpeg_decoder sample sample_size y y_stride u u_stride v v_stride w h dw dh s
        = (1, { mem := s.mem
                log := s.log ++ [Event.LoadFrame sample_size] ++ [Event.UnloadFrame] }) ∧
    MJPGToNV21 P mjpeg_decoder sample sample_size y y_stride uv uv_stride w h dw dh s
        = (1, { mem := s.mem
                log := s.log ++ [Event.LoadFrame sample_size] ++ [Event.UnloadFrame] }) ∧
    MJPGToARGB P mjpeg_decoder sample sample_size argb argb_stride w h dw dh s
        = (1, { mem := s.mem
                log := s.log ++ [Event.LoadFrame sample_size] ++ [Event.UnloadFrame] }) := by
  have hcond : (d.GetWidth != w || d.GetHeight != h) = true := by
    rcases hdim with hw | hh
    · simp [hw]
    · simp [hh]
  simp [MJPGToI420, MJPGToNV21, MJPGToARGB, hsize, hload, hcond, World.emit]

/-- Instance of C2: a 2x2 4:2:0 frame declared as 4x2. -/
theorem dimension_mismatch_returns_one_witness :
    (MJPGToI420 demoPlatform (demoDecoder (demoFrame ColorSpace.kColorSpaceYCbCr 3 2 2 true))
      [] 100 0 2 100 1 200 1 4 2 2 2 emptyWorld).1 = 1 :=
  congrArg Prod.fst (dimension_mismatch_returns_one demoPlatform
    (demoDecoder (demoFrame ColorSpace.kColorSpaceYCbCr 3 2 2 true))
    (demoFrame ColorSpace.kColorSpaceYCbCr 3 2 2 true)
    [] 100 0 2 100 1 200 1 0 0 0 0 4 2 2 2 emptyWorld (by decide) rfl (Or.inl (by decide))).1

/-- C3: when the frame loads with the declared dimensions and none of the five
layout conditions (4:2:0, 4:2:2, 4:4:4, 4:1:1, grayscale) holds, `MJPGToI420`,
`MJPGToARGB` and `MJPGToNV21` return `1` after `LoadFrame` and `UnloadFrame` only:
`DecodeToCallback` is not called, no callback is invoked, and the destination
memory is the one given. -/
theorem unsupported_layout_returns_one (P : Platform) (mjpeg_decoder : MJpegDecoder) (d : Frame)
    (sample : List Nat) (sample_size : Nat)
    (y y_stride u u_stride v v_stride uv uv_stride argb argb_stride w h dw dh : Int) (s : World)
    (hsize : sample_size ≠ P.kUnknownDataSize)
    (hload : mjpeg_decoder.LoadFrame sample sample_size = some d)
    (hw : d.GetWidth = w) (hh : d.GetHeight = h)
    (h420 : isYUV420 d = false) (h422 : isYUV422 d = false) (h444 : isYUV444 d = false)
    (h411 : isYUV411 d = false) (h400 : isYUV400 d = false) :
    MJPGToI420 P mjpeg_decoder sample sample_size y y_stride u u_stride v v_stride w h dw dh s
        = (1, { mem := s.mem
                log := s.log ++ [Event.LoadFrame sample_size] ++ [Event.UnloadFrame] }) ∧
    MJPGToARGB P mjpeg_decoder sample sample_size argb argb_stride w h dw dh s
        = (1, { mem := s.mem
                log := s.log ++ [Event.LoadFrame sample_size] ++ [Event.UnloadFrame] }) ∧
    MJPGToNV21 P mjpeg_decoder sample sample_size y y_stride uv uv_stride w h dw dh s
        = (1, { mem := s.mem
                log := s.log ++ [Event.LoadFrame sample_size] ++ [Event.UnloadFrame] }) := by
  simp [MJPGToI420, MJPGToNV21, MJPGToARGB, hsize, hload, hw, hh, h420, h422, h444, h411, h400,
    World.emit]

/-- Instance of C3: a YCbCr frame with three components whose component 0 has
sampling factors 2 (vertical) and 1 (horizontal), i.e. 4:4:0. -/
theorem unsupported_layout_returns_one_witness :
    (MJPGToARGB demoPlatform (demoDecoder (demoFrame ColorSpace.kColorSpaceYCbCr 3 2 1 true))
      [] 100 0 8 2 2 2 2 emptyWorld).1 = 1 :=
  congrArg Prod.fst (unsupported_layout_returns_one demoPlatform
    (demoDecoder (demoFrame ColorSpace.kColorSpaceYCbCr 3 2 1 true))
    (demoFrame ColorSpace.kColorSpaceYCbCr 3 2 1 true)
    [] 100 0 0 0 0 0 0 0 0 0 8 2 2 2 2 emptyWorld (by decide) rfl rfl rfl
    (by decide) (by decide) (by decide) (by decide) (by decide)).2.1

/-! ## The format dispatcher -/

/-- Two layout conditions that disagree on the component count or on a sampling
factor of component 0 cannot hold together. -/
theorem layout_exclusive (d : Frame) :
    (isYUV420 d = true → isYUV422 d = false ∧ isYUV444 d = false ∧ isYUV411 d = false ∧
      isYUV400 d = false) ∧
    (isYUV422 d = true → isYUV444 d = false ∧ isYUV411 d = false ∧ isYUV400 d = false) ∧
    (isYUV444 d = true → isYUV411 d = false ∧ isYUV400 d = false) ∧
    (isYUV411 d = true → isYUV400 d = false) := by
  refine ⟨fun h => ⟨?_, ?_, ?_, ?_⟩, fun h => ⟨?_, ?_, ?_⟩, fun h => ⟨?_, ?_⟩, fun h => ?_⟩
  all_goals
    rw [Bool.eq_false_iff]
    intro h2
    simp only [isYUV420, isYUV422, isYUV444, isYUV411, isYUV400, Bool.and_eq_true,
      beq_iff_eq] at h h2
    omega

/-- At most one of the five layout conditions holds. -/
theorem layout_count_le_one (d : Frame) :
    [isYUV420 d, isYUV422 d, isYUV444 d, isYUV411 d, isYUV400 d].count true ≤ 1 := by
  obtain ⟨e1, e2, e3, e4⟩ := layout_exclusive d
  cases h1 : isYUV420 d <;> cases h2 : isYUV422 d <;> cases h3 : isYUV444 d <;>
    cases h4 : isYUV411 d <;> cases h5 : isYUV400 d <;>
    simp_all

/-- First-match selection does not depend on the order of the entries when at
most one entry's condition holds. -/
theorem selectConverter_perm (d : Frame) (c1 c2 : List ((Frame → Bool) × Callback))
    (hp : c1.Perm c2) (hone : (c2.filter (fun e => e.1 d)).length ≤ 1) :
    selectConverter d c1 = selectConverter d c2 := by
  have key : ∀ c : List ((Frame → Bool) × Callback),
      selectConverter d c = ((c.filter (fun e => e.1 d)).head?).map Prod.snd := by
    intro c
    induction c with
    | nil => rfl
    | cons e rest ih =>
      by_cases he : e.1 d = true
      · simp [selectConverter, he]
      · simp [selectConverter, he, ih]
  rw [key, key]
  have hf := hp.filter (fun e => e.1 d)
  generalize c1.filter (fun e => e.1 d) = l1 at hf
  generalize c2.filter (fun e => e.1 d) = l2 at hf hone
  match l2, hone with
  | [], _ => rw [List.perm_nil.mp hf]
  | [a], _ => rw [List.perm_singleton.mp hf]
  | _ :: _ :: _, h => simp at h

/-- C4: for every frame metadata `d`, at most one of the five layout conditions
holds; selecting the first matching entry of the dispatch table of `MJPGToI420`
(or of `MJPGToARGB`) gives the same callback for every reordering of the table;
and when a condition holds on a loaded frame of the declared size, the entry
point is exactly the decode driven with the callback of that layout:
4:2:0 `JpegCopyI420` / `JpegI420ToARGB`, 4:2:2 `JpegI422ToI420` / `JpegI422ToARGB`,
4:4:4 `JpegI444ToI420` / `JpegI444ToARGB`, 4:1:1 `JpegI411ToI420` / `JpegI411ToARGB`,
grayscale `JpegI400ToI420` / `JpegI400ToARGB`. -/
theorem dispatch_selects_unique_converter (d : Frame) :
    [isYUV420 d, isYUV422 d, isYUV444 d, isYUV411 d, isYUV400 d].count true ≤ 1 ∧
    (∀ chain : List ((Frame → Bool) × Callback), chain.Perm chainI420 →
      selectConverter d chain = selectConverter d chainI420) ∧
    (∀ chain : List ((Frame → Bool) × Callback), chain.Perm chainARGB →
      selectConverter d chain = selectConverter d chainARGB) ∧
    (∀ (P : Platform) (mjpeg_decoder : MJpegDecoder) (sample : List Nat) (sample_size : Nat)
      (y y_stride u u_stride v v_stride argb argb_stride dw dh : Int) (s : World),
      sample_size ≠ P.kUnknownDataSize →
      mjpeg_decoder.LoadFrame sample sample_size = some d →
      (isYUV420 d = true →
        selectConverter d chainI420 = some Callback.JpegCopyI420 ∧
        selectConverter d chainARGB = some Callback.JpegI420ToARGB ∧
        MJPGToI420 P mjpeg_decoder sample sample_size y y_stride u u_stride v v_stride
          d.GetWidth d.GetHeight dw dh s =
          driveI420 d Callback.JpegCopyI420 (JpegCopyI420 P) sample_size
            y y_stride u u_stride v v_stride dw dh s ∧
        MJPGToARGB P mjpeg_decoder sample sample_size argb argb_stride
          d.GetWidth d.GetHeight dw dh s =
          driveARGB d Callback.JpegI420ToARGB (JpegI420ToARGB P) sample_size
            argb argb_stride dw dh s) ∧
      (isYUV422 d = true →
        selectConverter d chainI420 = some Callback.JpegI422ToI420 ∧
        selectConverter d chainARGB = some Callback.JpegI422ToARGB ∧
        MJPGToI420 P mjpeg_decoder sample sample_size y y_stride u u_stride v v_stride
          d.GetWidth d.GetHeight dw dh s =
          driveI420 d Callback.JpegI422ToI420 (JpegI422ToI420 P) sample_size
            y y_stride u u_stride v v_stride dw dh s ∧
        MJPGToARGB P mjpeg_decoder sample sample_size argb argb_stride
          d.GetWidth d.GetHeight dw dh s =
          driveARGB d Callback.JpegI422ToARGB (JpegI422ToARGB P) sample_size
            argb argb_stride dw dh s) ∧
      (isYUV444 d = true →
        selectConverter d chainI420 = some Callback.JpegI444ToI420 ∧
        selectConverter d chainARGB = some Callback.JpegI444ToARGB ∧
        MJPGToI420 P mjpeg_decoder sample sample_size y y_stride u u_stride v v_stride
          d.GetWidth d.GetHeight dw dh s =
          driveI420 d Callback.JpegI444ToI420 (JpegI444ToI420 P) sample_size
            y y_stride u u_stride v v_stride dw dh s ∧
        MJPGToARGB P mjpeg_decoder sample sample_size argb argb_stride
          d.GetWidth d.GetHeight dw dh s =
          driveARGB d Callback.JpegI444ToARGB (JpegI444ToARGB P) sample_size
            argb argb_stride dw dh s) ∧
      (isYUV411 d = true →
        selectConverter d chainI420 = some Callback.JpegI411ToI420 ∧
        selectConverter d chainARGB = some Callback.JpegI411ToARGB ∧
        MJPGToI420 P mjpeg_decoder sample sample_size y y_stride u u_stride v v_stride
          d.GetWidth d.GetHeight dw dh s =
          driveI420 d Callback.JpegI411ToI420 (JpegI411ToI420 P) sample_size
            y y_stride u u_stride v v_stride dw dh s ∧
        MJPGToARGB P mjpeg_decoder sample sample_size argb argb_stride
          d.GetWidth d.GetHeight dw dh s =
          driveARGB d Callback.JpegI411ToARGB (JpegI411ToARGB P) sample_size
            argb argb_stride dw dh s) ∧
      (isYUV400 d = true →
        selectConverter d chainI420 = some Callback.JpegI400ToI420 ∧
        selectConverter d chainARGB = some Callback.JpegI400ToARGB ∧
        MJPGToI420 P mjpeg_decoder sample sample_size y y_stride u u_stride v v_stride
          d.GetWidth d.GetHeight dw dh s =
          driveI420 d Callback.JpegI400ToI420 (JpegI400ToI420 P) sample_size
            y y_stride u u_stride v v_stride dw dh s ∧
        MJPGToARGB P mjpeg_decoder sample sample_size argb argb_stride
          d.GetWidth d.GetHeight dw dh s =
          driveARGB d Callback.JpegI400ToARGB (JpegI400ToARGB P) sample_size
            argb argb_stride dw dh s)) := by
  have hcount := layout_count_le_one d
  obtain ⟨e1, e2, e3, e4⟩ := layout_exclusive d
  have hone420 : (chainI420.filter (fun e => e.1 d)).length ≤ 1 := by
    cases h1 : isYUV420 d <;> cases h2 : isYUV422 d <;> cases h3 : isYUV444 d <;>
      cases h4 : isYUV411 d <;> cases h5 : isYUV400 d <;>
      simp_all [chainI420, List.filter]
  have honeARGB : (chainARGB.filter (fun e => e.1 d)).length ≤ 1 := by
    cases h1 : isYUV420 d <;> cases h2 : isYUV422 d <;> cases h3 : isYUV444 d <;>
      cases h4 : isYUV411 d <;> cases h5 : isYUV400 d <;>
      simp_all [chainARGB, List.filter]
  refine ⟨hcount, fun chain hp => selectConverter_perm d chain chainI420 hp hone420,
    fun chain hp => selectConverter_perm d chain chainARGB hp honeARGB, ?_⟩
  intro P mjpeg_decoder sample sample_size y y_stride u u_stride v v_stride argb argb_stride
    dw dh s hsize hload
  refine ⟨fun h => ?_, fun h => ?_, fun h => ?_, fun h => ?_, fun h => ?_⟩
  · simp [MJPGToI420, MJPGToARGB, hsize, hload, h, driveI420, driveARGB, selectConverter, chainI420,
      chainARGB]
  · have h1 : isYUV420 d = false := by
      cases h' : isYUV420 d
      · rfl
      · simp [(e1 h').1] at h
    simp [MJPGToI420, MJPGToARGB, hsize, hload, h, h1, driveI420, driveARGB, selectConverter, chainI420,
      chainARGB]
  · have h1 : isYUV420 d = false := by
      cases h' : isYUV420 d
      · rfl
      · simp [(e1 h').2.1] at h
    have h2 : isYUV422 d = false := by
      cases h' : isYUV422 d
      · rfl
      · simp [(e2 h').1] at h
    simp [MJPGToI420, MJPGToARGB, hsize, hload, h, h1, h2, driveI420, driveARGB, selectConverter,
      chainI420, chainARGB]
  · have h1 : isYUV420 d = false := by
      cases h' : isYUV420 d
      · rfl
      · simp [(e1 h').2.2.1] at h
    have h2 : isYUV422 d = false := by
      cases h' : isYUV422 d
      · rfl
      · simp [(e2 h').2.1] at h
    have h3 : isYUV444 d = false := by
      cases h' : isYUV444 d
      · rfl
      · simp [(e3 h').1] at h
    simp [MJPGToI420, MJPGToARGB, hsize, hload, h, h1, h2, h3, driveI420, driveARGB, selectConverter,
      chainI420, chainARGB]
  · have h1 : isYUV420 d = false := by
      cases h' : isYUV420 d
      · rfl
      · simp [(e1 h').2.2.2] at h
    have h2 : isYUV422 d = false := by
      cases h' : isYUV422 d
      · rfl
      · simp [(e2 h').2.2] at h
    have h3 : isYUV444 d = false := by
      cases h' : isYUV444 d
      · rfl
      · simp [(e3 h').2] at h
    have h4 : isYUV411 d = false := by
      cases h' : isYUV411 d
      · rfl
      · simp [e4 h'] at h
    simp [MJPGToI420, MJPGToARGB, hsize, hload, h, h1, h2, h3, h4, driveI420, driveARGB, selectConverter,
      chainI420, chainARGB]

/-- Instance of C4: on the 2x2 4:2:2 frame the table of `MJPGToI420` selects
`JpegI422ToI420` and the entry point is the decode driven with that callback. -/
theorem dispatch_selects_unique_converter_witness :
    isYUV422 (demoFrame ColorSpace.kColorSpaceYCbCr 3 1 2 true) = true ∧
    selectConverter (demoFrame ColorSpace.kColorSpaceYCbCr 3 1 2 true) chainI420
      = some Callback.JpegI422ToI420 ∧
    MJPGToI420 demoPlatform (demoDecoder (demoFrame ColorSpace.kColorSpaceYCbCr 3 1 2 true))
      [] 100 0 2 100 1 200 1 2 2 2 2 emptyWorld =
      driveI420 (demoFrame ColorSpace.kColorSpaceYCbCr 3 1 2 true) Callback.JpegI422ToI420
        (JpegI422ToI420 demoPlatform) 100 0 2 100 1 200 1 2 2 emptyWorld :=
  have h := ((dispatch_selects_unique_converter
    (demoFrame ColorSpace.kColorSpaceYCbCr 3 1 2 true)).2.2.2 demoPlatform
    (demoDecoder (demoFrame ColorSpace.kColorSpaceYCbCr 3 1 2 true)) [] 100
    0 2 100 1 200 1 0 8 2 2 emptyWorld (by decide) rfl).2.1 (by decide)
  ⟨by decide, h.1, h.2.2.1⟩

/-! ## Status of the single-threaded drivers -/

/-- C5: with a known `sample_size`, `MJPGToI420` (and likewise `MJPGToARGB`)
returns `0` if and only if the frame loads, its reported width and height equal
the declared `w` and `h`, one of the five layout conditions holds, and the
decoder reports success for the decode it is driven through; and whenever the
frame loads with the declared size in a supported layout but the decoder reports
failure, both return `1`. -/
theorem success_iff_loaded_matching_supported_decoded (P : Platform)
    (mjpeg_decoder : MJpegDecoder) (sample : List Nat) (sample_size : Nat)
    (y y_stride u u_stride v v_stride argb argb_stride w h dw dh : Int) (s : World)
    (hsize : sample_size ≠ P.kUnknownDataSize) :
    ((MJPGToI420 P mjpeg_decoder sample sample_size y y_stride u u_stride v v_stride
        w h dw dh s).1 = 0 ↔
      ∃ d, mjpeg_decoder.LoadFrame sample sample_size = some d ∧
        d.GetWidth = w ∧ d.GetHeight = h ∧ isSupported d = true ∧
        (d.DecodeToCallback dw dh).2 = true) ∧
    ((MJPGToARGB P mjpeg_decoder sample sample_size argb argb_stride w h dw dh s).1 = 0 ↔
      ∃ d, mjpeg_decoder.LoadFrame sample sample_size = some d ∧
        d.GetWidth = w ∧ d.GetHeight = h ∧ isSupported d = true ∧
        (d.DecodeToCallback dw dh).2 = true) ∧
    (∀ d, mjpeg_decoder.LoadFrame sample sample_size = some d →
      d.GetWidth = w → d.GetHeight = h → isSupported d = true →
      (d.DecodeToCallback dw dh).2 = false →
      (MJPGToI420 P mjpeg_decoder sample sample_size y y_stride u u_stride v v_stride
        w h dw dh s).1 = 1 ∧
      (MJPGToARGB P mjpeg_decoder sample sample_size argb argb_stride w h dw dh s).1 = 1) := by
  cases hload : mjpeg_decoder.LoadFrame sample sample_size with
  | none => simp [MJPGToI420, MJPGToARGB, hsize, hload]
  | some d =>
    by_cases hw : d.GetWidth = w
    · by_cases hh : d.GetHeight = h
      · cases h1 : isYUV420 d <;> cases h2 : isYUV422 d <;> cases h3 : isYUV444 d <;>
          cases h4 : isYUV411 d <;> cases h5 : isYUV400 d <;>
          cases hdec : (d.DecodeToCallback dw dh).2 <;>
          simp [MJPGToI420, MJPGToARGB, hsize, hload, hw, hh, h1, h2, h3, h4, h5, hdec,
            isSupported, DecodeToCallback]
      · simp [MJPGToI420, MJPGToARGB, hsize, hload, hw, hh]
    · simp [MJPGToI420, MJPGToARGB, hsize, hload, hw]

/-- Instance of C5: the 2x2 4:2:0 frame converted with its own size succeeds. -/
theorem success_iff_loaded_matching_supported_decoded_witness :
    (100 : Nat) ≠ demoPlatform.kUnknownDataSize ∧
    (MJPGToI420 demoPlatform (demoDecoder (demoFrame ColorSpace.kColorSpaceYCbCr 3 2 2 true))
      [] 100 0 2 100 1 200 1 2 2 2 2 emptyWorld).1 = 0 :=
  ⟨by decide,
    (success_iff_loaded_matching_supported_decoded demoPlatform
      (demoDecoder (demoFrame ColorSpace.kColorSpaceYCbCr 3 2 2 true)) [] 100
      0 2 100 1 200 1 0 8 2 2 2 2 emptyWorld (by decide)).1.mpr
      ⟨demoFrame ColorSpace.kColorSpaceYCbCr 3 2 2 true, rfl, rfl, rfl, by decide, rfl⟩⟩

/-! ## Status codes -/

/-- The creation loop visits the worker indices `2`, `1`, `0` in this order. -/
theorem creation_order : (List.range THREAD_NUM).reverse = [2, 1, 0] := by decide

/-- Status of the partitioned driver in terms of the outcome of its creation loop. -/
theorem multiThD_status_eq (P : Platform) (decoder_th : Nat → MJpegDecoder) (sched : List Nat)
    (sample : List Nat) (sample_size : Nat)
    (y y_stride uv uv_stride w h dw dh : Int) (s : World)
    (hsize : sample_size ≠ P.kUnknownDataSize) :
    (MJPGToNV21_MultiThD P decoder_th sched sample sample_size y y_stride uv uv_stride
        w h dw dh s).status =
      match createLoop P decoder_th sample sample_size w h ⟨y, y_stride, uv, uv_stride, dw, dh⟩
          [2, 1, 0] ⟨true, s, []⟩ with
      | Except.error (status, _) => status
      | Except.ok st => if st.ret = true then 0 else -1 := by
  simp only [MJPGToNV21_MultiThD, creation_order]
  have hb : (sample_size == P.kUnknownDataSize) = false := by simpa using hsize
  rw [hb]
  simp only [Bool.false_eq_true, if_false]
  cases createLoop P decoder_th sample sample_size w h ⟨y, y_stride, uv, uv_stride, dw, dh⟩
      [2, 1, 0] ⟨true, s, []⟩ with
  | error e => rfl
  | ok st => simp

/-- A `return` from inside the creation loop carries status `1`, or status `-1`
after a failed `pthread_create`. -/
theorem createLoop_error (P : Platform) (decoder_th : Nat → MJpegDecoder)
    (sample : List Nat) (sample_size : Nat) (w h : Int) (bufs : NV21Buffers)
    (is : List Nat) (st : LoopState) (c : Int) (st' : LoopState)
    (he : createLoop P decoder_th sample sample_size w h bufs is st = Except.error (c, st')) :
    c = 1 ∨ (c = -1 ∧ ∃ i ∈ is, P.pthread_create i = false) := by
  induction is generalizing st with
  | nil => simp [createLoop] at he
  | cons i is ih =>
    simp only [createLoop] at he
    cases hl : (decoder_th i).LoadFrame sample sample_size with
    | none =>
      rw [hl] at he
      rcases ih _ he with h1 | ⟨h1, j, hj, hc⟩
      · exact Or.inl h1
      · exact Or.inr ⟨h1, j, List.mem_cons_of_mem _ hj, hc⟩
    | some d =>
      rw [hl] at he
      simp only at he
      split_ifs at he with hdim h422 hsp
      · simp only [Except.error.injEq, Prod.mk.injEq] at he
        exact Or.inl he.1.symm
      · rcases ih _ he with h1 | ⟨h1, j, hj, hc⟩
        · exact Or.inl h1
        · exact Or.inr ⟨h1, j, List.mem_cons_of_mem _ hj, hc⟩
      · simp only [Except.error.injEq, Prod.mk.injEq] at he
        exact Or.inr ⟨he.1.symm, i, List.mem_cons_self _ _, by simpa using hsp⟩
      · simp only [Except.error.injEq, Prod.mk.injEq] at he
        exact Or.inl he.1.symm

/-- When the creation loop runs to its end, `ret` is the load result of the last
index visited (or the initial value when no index is visited). -/
theorem createLoop_ok_ret (P : Platform) (decoder_th : Nat → MJpegDecoder)
    (sample : List Nat) (sample_size : Nat) (w h : Int) (bufs : NV21Buffers)
    (is : List Nat) (st st' : LoopState)
    (he : createLoop P decoder_th sample sample_size w h bufs is st = Except.ok st') :
    st'.ret = match is.getLast? with
      | none => st.ret
      | some i => ((decoder_th i).LoadFrame sample sample_size).isSome := by
  induction is generalizing st with
  | nil =>
    simp only [createLoop, Except.ok.injEq] at he
    simp [he]
  | cons i is ih =>
    have hlast : ∀ (r : Bool) (st1 : LoopState), st1.ret = r →
        ((decoder_th i).LoadFrame sample sample_size).isSome = r →
        createLoop P decoder_th sample sample_size w h bufs is st1 = Except.ok st' →
        st'.ret = match (i :: is).getLast? with
          | none => st.ret
          | some i => ((decoder_th i).LoadFrame sample sample_size).isSome := by
      intro r st1 hr hlr he1
      rw [ih _ he1]
      cases is with
      | nil => simp [hr, hlr]
      | cons j js =>
        obtain ⟨l, hl'⟩ : ∃ l, (j :: js).getLast? = some l :=
          ⟨_, List.getLast?_eq_getLast _ (by simp)⟩
        rw [List.getLast?_cons_cons, hl']
    simp only [createLoop] at he
    cases hl : (decoder_th i).LoadFrame sample sample_size with
    | none =>
      rw [hl] at he
      exact hlast false _ rfl (by simp [hl]) he
    | some d =>
      rw [hl] at he
      simp only at he
      split_ifs at he with hdim h422 hsp
      exact hlast true _ rfl (by simp [hl]) he

/-- C6 (as stated, refuted): with a known `sample_size` and no thread involved,
`MJPGToNV21` returns `-1` when the frame fails to load, and also when the frame
loads as 4:2:2 with the declared size and the decoder reports a decode failure. -/
theorem nv21_runtime_failure_returns_minus_one :
    (100 : Nat) ≠ demoPlatform.kUnknownDataSize ∧
    failingDecoder.LoadFrame [] 100 = none ∧
    (MJPGToNV21 demoPlatform failingDecoder [] 100 0 2 100 2 2 2 2 2 emptyWorld).1 = -1 ∧
    ((demoFrame ColorSpace.kColorSpaceYCbCr 3 1 2 false).DecodeToCallback 2 2).2 = false ∧
    (MJPGToNV21 demoPlatform (demoDecoder (demoFrame ColorSpace.kColorSpaceYCbCr 3 1 2 false))
      [] 100 0 2 100 2 2 2 2 2 emptyWorld).1 = -1 := by
  refine ⟨by decide, rfl, by decide, rfl, by decide⟩

/-- C6 (amended): every entry point returns `0`, `1` or `-1`.  `MJPGToI420` and
`MJPGToARGB` return `-1` exactly when `sample_size` is the unknown-size sentinel
and return `1` when the frame fails to load.  `MJPGToNV21` returns `-1` exactly
when `sample_size` is the sentinel, or the frame fails to load, or the frame
loads as 4:2:2 with the declared size and the decoder reports failure.
`MJPGToNV21_MultiThD` returns `-1` only when `sample_size` is the sentinel, or
`pthread_create` fails for a worker, or the frame fails to load for a worker. -/
theorem status_codes (P : Platform) (mjpeg_decoder : MJpegDecoder)
    (decoder_th : Nat → MJpegDecoder) (sched : List Nat) (sample : List Nat) (sample_size : Nat)
    (y y_stride u u_stride v v_stride uv uv_stride argb argb_stride w h dw dh : Int)
    (s : World) :
    ((MJPGToI420 P mjpeg_decoder sample sample_size y y_stride u u_stride v v_stride
        w h dw dh s).1 ∈ [0, 1, -1] ∧
     (MJPGToNV21 P mjpeg_decoder sample sample_size y y_stride uv uv_stride w h dw dh s).1
        ∈ [0, 1, -1] ∧
     (MJPGToNV21_MultiThD P decoder_th sched sample sample_size y y_stride uv uv_stride
        w h dw dh s).status ∈ [0, 1, -1] ∧
     (MJPGToARGB P mjpeg_decoder sample sample_size argb argb_stride w h dw dh s).1
        ∈ [0, 1, -1]) ∧
    ((MJPGToI420 P mjpeg_decoder sample sample_size y y_stride u u_stride v v_stride
        w h dw dh s).1 = -1 ↔ sample_size = P.kUnknownDataSize) ∧
    ((MJPGToARGB P mjpeg_decoder sample sample_size argb argb_stride w h dw dh s).1 = -1 ↔
        sample_size = P.kUnknownDataSize) ∧
    (sample_size ≠ P.kUnknownDataSize → mjpeg_decoder.LoadFrame sample sample_size = none →
      (MJPGToI420 P mjpeg_decoder sample sample_size y y_stride u u_stride v v_stride
        w h dw dh s).1 = 1 ∧
      (MJPGToARGB P mjpeg_decoder sample sample_size argb argb_stride w h dw dh s).1 = 1) ∧
    ((MJPGToNV21 P mjpeg_decoder sample sample_size y y_stride uv uv_stride w h dw dh s).1 = -1 ↔
        sample_size = P.kUnknownDataSize ∨
        mjpeg_decoder.LoadFrame sample sample_size = none ∨
        ∃ d, mjpeg_decoder.LoadFrame sample sample_size = some d ∧
          d.GetWidth = w ∧ d.GetHeight = h ∧ isYUV422 d = true ∧
          (d.DecodeToCallback dw dh).2 = false) ∧
    ((MJPGToNV21_MultiThD P decoder_th sched sample sample_size y y_stride uv uv_stride
        w h dw dh s).status = -1 →
      sample_size = P.kUnknownDataSize ∨
      (∃ i, i < THREAD_NUM ∧ P.pthread_create i = false) ∨
      (∃ i, i < THREAD_NUM ∧ (decoder_th i).LoadFrame sample sample_size = none)) := by
  have hsingle :
      ((MJPGToI420 P mjpeg_decoder sample sample_size y y_stride u u_stride v v_stride
          w h dw dh s).1 ∈ [0, 1, -1] ∧
       (MJPGToNV21 P mjpeg_decoder sample sample_size y y_stride uv uv_stride w h dw dh s).1
          ∈ [0, 1, -1] ∧
       (MJPGToARGB P mjpeg_decoder sample sample_size argb argb_stride w h dw dh s).1
          ∈ [0, 1, -1]) ∧
      ((MJPGToI420 P mjpeg_decoder sample sample_size y y_stride u u_stride v v_stride
          w h dw dh s).1 = -1 ↔ sample_size = P.kUnknownDataSize) ∧
      ((MJPGToARGB P mjpeg_decoder sample sample_size argb argb_stride w h dw dh s).1 = -1 ↔
          sample_size = P.kUnknownDataSize) ∧
      (sample_size ≠ P.kUnknownDataSize → mjpeg_decoder.LoadFrame sample sample_size = none →
        (MJPGToI420 P mjpeg_decoder sample sample_size y y_stride u u_stride v v_stride
          w h dw dh s).1 = 1 ∧
        (MJPGToARGB P mjpeg_decoder sample sample_size argb argb_stride w h dw dh s).1 = 1) ∧
      ((MJPGToNV21 P mjpeg_decoder sample sample_size y y_stride uv uv_stride w h dw dh s).1
          = -1 ↔
          sample_size = P.kUnknownDataSize ∨
          mjpeg_decoder.LoadFrame sample sample_size = none ∨
          ∃ d, mjpeg_decoder.LoadFrame sample sample_size = some d ∧
            d.GetWidth = w ∧ d.GetHeight = h ∧ isYUV422 d = true ∧
            (d.DecodeToCallback dw dh).2 = false) := by
    by_cases hsize : sample_size = P.kUnknownDataSize
    · simp [MJPGToI420, MJPGToNV21, MJPGToARGB, hsize]
    · cases hload : mjpeg_decoder.LoadFrame sample sample_size with
      | none => simp [MJPGToI420, MJPGToNV21, MJPGToARGB, hsize, hload]
      | some d =>
        by_cases hw : d.GetWidth = w
        · by_cases hh : d.GetHeight = h
          · cases h1 : isYUV420 d <;> cases h2 : isYUV422 d <;> cases h3 : isYUV444 d <;>
              cases h4 : isYUV411 d <;> cases h5 : isYUV400 d <;>
              cases hdec : (d.DecodeToCallback dw dh).2 <;>
              simp [MJPGToI420, MJPGToNV21, MJPGToARGB, hsize, hload, hw, hh, h1, h2, h3, h4,
                h5, hdec, DecodeToCallback]
          · simp [MJPGToI420, MJPGToNV21, MJPGToARGB, hsize, hload, hw, hh]
        · simp [MJPGToI420, MJPGToNV21, MJPGToARGB, hsize, hload, hw]
  have hmulti :
      (MJPGToNV21_MultiThD P decoder_th sched sample sample_size y y_stride uv uv_stride
          w h dw dh s).status ∈ [0, 1, -1] ∧
      ((MJPGToNV21_MultiThD P decoder_th sched sample sample_size y y_stride uv uv_stride
          w h dw dh s).status = -1 →
        sample_size = P.kUnknownDataSize ∨
        (∃ i, i < THREAD_NUM ∧ P.pthread_create i = false) ∨
        (∃ i, i < THREAD_NUM ∧ (decoder_th i).LoadFrame sample sample_size = none)) := by
    by_cases hsize : sample_size = P.kUnknownDataSize
    · simp [MJPGToNV21_MultiThD, hsize]
    · rw [multiThD_status_eq P decoder_th sched sample sample_size y y_stride uv uv_stride
        w h dw dh s hsize]
      cases hc : createLoop P decoder_th sample sample_size w h
          ⟨y, y_stride, uv, uv_stride, dw, dh⟩ [2, 1, 0] ⟨true, s, []⟩ with
      | error e =>
        obtain ⟨c, st'⟩ := e
        rcases createLoop_error P decoder_th sample sample_size w h _ _ _ c st' hc with
          h1 | ⟨h1, j, hj, hsp⟩
        · subst h1
          simp
        · subst h1
          refine ⟨by simp, fun _ => Or.inr (Or.inl ⟨j, ?_, hsp⟩)⟩
          simp only [List.mem_cons, List.mem_singleton, List.not_mem_nil, or_false] at hj
          rcases hj with rfl | rfl | rfl <;> decide
      | ok st =>
        have hret := createLoop_ok_ret P decoder_th sample sample_size w h _ _ _ st hc
        have hret0 : st.ret = ((decoder_th 0).LoadFrame sample sample_size).isSome := hret
        cases hr : st.ret with
        | true => simp [hr]
        | false =>
          refine ⟨by simp [hr], fun _ => Or.inr (Or.inr ⟨0, by decide, ?_⟩)⟩
          rw [hr] at hret0
          cases hl : (decoder_th 0).LoadFrame sample sample_size with
          | none => rfl
          | some d => simp [hl] at hret0
  exact ⟨⟨hsingle.1.1, hsingle.1.2.1, hmulti.1, hsingle.1.2.2⟩, hsingle.2.1, hsingle.2.2.1,
    hsingle.2.2.2.1, hsingle.2.2.2.2, hmulti.2⟩

/-! ## The partitioned run against the single-threaded run -/

/-- Memory after the single-threaded 4:2:2 fold over the batches. -/
theorem foldl_JpegI422ToNV21_mem (P : Platform) (bs : List RowBatch) (bufs : NV21Buffers)
    (s : World) :
    (bs.foldl (fun (acc : NV21Buffers × World) (b : RowBatch) =>
        JpegI422ToNV21 P acc.1 b.data b.strides b.rows
          (acc.2.emit (Event.Invoke Callback.JpegI422ToNV21 b.rows))) (bufs, s)).2.mem
      = applyCalls P (callsFrom bufs bs) s.mem := by
  induction bs generalizing bufs s with
  | nil => rfl
  | cons b bs ih =>
    simp only [List.foldl_cons, callsFrom, applyCalls]
    rw [ih]
    rfl

/-- Memory after a thread has performed all its pending actions. -/
theorem runSteps_mem (P : Platform) (id : Nat) (steps : List Step) (bufs : NV21Buffers)
    (s : World) :
    (runSteps P id steps bufs s).2.mem = applyCalls P (pendingCalls bufs steps) s.mem := by
  induction steps generalizing bufs s with
  | nil => rfl
  | cons st rest ih =>
    cases st with
    | affinity c =>
      simp only [runSteps, pendingCalls]
      rw [ih]
      rfl
    | row b f =>
      simp only [runSteps, pendingCalls]
      rw [ih]
      by_cases hf : f = 0
      · simp [hf, JpegI422ToNV21_flag, applyCalls, World.call, World.emit]
      · simp [hf, JpegI422ToNV21_flag, applyCalls, World.emit, NV21Buffers.advance]

/-- Applying a concatenation is applying its parts in turn. -/
theorem applyCalls_append (P : Platform) (a b : List KernelCall) (m : Mem) :
    applyCalls P (a ++ b) m = applyCalls P b (applyCalls P a m) := by
  simp [applyCalls, List.foldl_append]

/-- Commuting calls can be applied in any order. -/
theorem applyCalls_perm (P : Platform) (a b : List KernelCall) (m : Mem) (hp : a.Perm b)
    (hcomm : ∀ x ∈ a, ∀ y ∈ a, ∀ z, P.kernel x (P.kernel y z) = P.kernel y (P.kernel x z)) :
    applyCalls P a m = applyCalls P b m := by
  unfold applyCalls
  exact hp.foldl_eq' (fun x hx y hy z => hcomm y hy x hx z) m

/-- One scheduled action splits the outstanding calls as `A ++ pre ++ B`, performs
`pre` on memory and leaves `A ++ B` outstanding; thread indices are unchanged. -/
theorem stepThread_decomp (P : Platform) (i : Nat) (ts : List Thread) (s : World) :
    (∃ A pre B, todoAll ts = A ++ (pre ++ B) ∧
      todoAll (stepThread P i ts s).1 = A ++ B ∧
      (stepThread P i ts s).2.mem = applyCalls P pre s.mem) ∧
    (stepThread P i ts s).1.map Thread.id = ts.map Thread.id := by
  induction ts generalizing s with
  | nil => exact ⟨⟨[], [], [], rfl, rfl, rfl⟩, rfl⟩
  | cons t ts ih =>
    by_cases hid : t.id = i
    · simp only [stepThread, hid, beq_self_eq_true, if_true]
      cases hp : t.pending with
      | nil =>
        refine ⟨⟨[], [], todoAll (t :: ts), rfl, ?_, ?_⟩, ?_⟩ <;>
          simp [Thread.step, hp, todoAll, applyCalls, pendingCalls]
      | cons st rest =>
        cases st with
        | affinity c =>
          refine ⟨⟨[], [], todoAll (t :: ts), rfl, ?_, ?_⟩, ?_⟩ <;>
            simp [Thread.step, hp, todoAll, applyCalls, pendingCalls, World.emit]
        | row b f =>
          by_cases hf : f = 0
          · refine ⟨⟨[], [nv21Call t.bufs b.data b.strides b.rows],
              pendingCalls (t.bufs.advance b.rows) rest ++ todoAll ts, ?_, ?_, ?_⟩, ?_⟩ <;>
              simp [Thread.step, hp, hf, todoAll, applyCalls, pendingCalls, World.emit,
                World.call, JpegI422ToNV21_flag]
          · refine ⟨⟨[], [], todoAll (t :: ts), rfl, ?_, ?_⟩, ?_⟩ <;>
              simp [Thread.step, hp, hf, todoAll, applyCalls, pendingCalls, World.emit,
                JpegI422ToNV21_flag]
    · have hne : (t.id == i) = false := by simpa using hid
      simp only [stepThread, hne, Bool.false_eq_true, if_false]
      obtain ⟨⟨A, pre, B, h1, h2, h3⟩, h4⟩ := ih s
      refine ⟨⟨pendingCalls t.bufs t.pending ++ A, pre, B, ?_, ?_, h3⟩, ?_⟩
      · simp only [todoAll, List.map_cons, List.flatten_cons] at h1 ⊢
        rw [h1, List.append_assoc]
      · simp only [todoAll, List.map_cons, List.flatten_cons] at h2 ⊢
        rw [h2, List.append_assoc]
      · simp [h4]

/-- Joining a thread splits the outstanding calls as `A ++ pre ++ B`, performs
`pre` on memory and leaves `A ++ B` outstanding; thread indices are unchanged. -/
theorem pthread_join_decomp (P : Platform) (i : Nat) (ts : List Thread) (s : World) :
    (∃ A pre B, todoAll ts = A ++ (pre ++ B) ∧
      todoAll (pthread_join P i ts s).1 = A ++ B ∧
      (pthread_join P i ts s).2.mem = applyCalls P pre s.mem) ∧
    (pthread_join P i ts s).1.map Thread.id = ts.map Thread.id := by
  induction ts generalizing s with
  | nil => exact ⟨⟨[], [], [], rfl, rfl, rfl⟩, rfl⟩
  | cons t ts ih =>
    by_cases hid : t.id = i
    · simp only [pthread_join, hid, beq_self_eq_true, if_true]
      refine ⟨⟨[], pendingCalls t.bufs t.pending, todoAll ts, ?_, ?_, ?_⟩, ?_⟩
      · simp [todoAll]
      · simp [todoAll, pendingCalls]
      · simp only [World.emit]
        rw [← hid]
        exact runSteps_mem P t.id t.pending t.bufs s
      · simp [hid]
    · have hne : (t.id == i) = false := by simpa using hid
      simp only [pthread_join, hne, Bool.false_eq_true, if_false]
      obtain ⟨⟨A, pre, B, h1, h2, h3⟩, h4⟩ := ih s
      refine ⟨⟨pendingCalls t.bufs t.pending ++ A, pre, B, ?_, ?_, h3⟩, ?_⟩
      · simp only [todoAll, List.map_cons, List.flatten_cons] at h1 ⊢
        rw [h1, List.append_assoc]
      · simp only [todoAll, List.map_cons, List.flatten_cons] at h2 ⊢
        rw [h2, List.append_assoc]
      · simp [h4]

/-- When the outstanding calls commute, performing a part of them first does not
change the memory reached once all of them are performed. -/
theorem decomp_preserves (P : Platform) (todo todo' A pre B : List KernelCall) (m m' : Mem)
    (h1 : todo = A ++ (pre ++ B)) (h2 : todo' = A ++ B) (h3 : m' = applyCalls P pre m)
    (hcomm : ∀ x ∈ todo, ∀ y ∈ todo, ∀ z, P.kernel x (P.kernel y z) = P.kernel y (P.kernel x z)) :
    applyCalls P todo' m' = applyCalls P todo m ∧ (∀ c ∈ todo', c ∈ todo) := by
  subst h1 h2 h3
  constructor
  · rw [← applyCalls_append]
    symm
    apply applyCalls_perm P _ _ m _ hcomm
    rw [← List.append_assoc, ← List.append_assoc]
    exact List.Perm.append_right B List.perm_append_comm
  · intro c hc
    simp only [List.mem_append] at hc ⊢
    tauto

/-- A schedule of worker actions preserves the memory that is reached once all
outstanding calls are performed, and adds no outstanding call. -/
theorem runSchedule_preserves (P : Platform) (sched : List Nat) (ts : List Thread) (s : World)
    (hcomm : ∀ x ∈ todoAll ts, ∀ y ∈ todoAll ts, ∀ z,
      P.kernel x (P.kernel y z) = P.kernel y (P.kernel x z)) :
    applyCalls P (todoAll (runSchedule P sched ts s).1) (runSchedule P sched ts s).2.mem
      = applyCalls P (todoAll ts) s.mem ∧
    (∀ c ∈ todoAll (runSchedule P sched ts s).1, c ∈ todoAll ts) ∧
    (runSchedule P sched ts s).1.map Thread.id = ts.map Thread.id := by
  induction sched generalizing ts s with
  | nil => exact ⟨rfl, fun _ h => h, rfl⟩
  | cons i sched ih =>
    simp only [runSchedule]
    obtain ⟨⟨A, pre, B, h1, h2, h3⟩, h4⟩ := stepThread_decomp P i ts s
    obtain ⟨hv, hsub⟩ := decomp_preserves P _ _ A pre B _ _ h1 h2 h3 hcomm
    obtain ⟨iv, isub, iid⟩ := ih (stepThread P i ts s).1 (stepThread P i ts s).2
      (fun x hx y hy z => hcomm x (hsub x hx) y (hsub y hy) z)
    exact ⟨iv.trans hv, fun c hc => hsub c (isub c hc), iid.trans h4⟩

/-- The join loop preserves the memory that is reached once all outstanding calls
are performed, and adds no outstanding call. -/
theorem joinLoop_preserves (P : Platform) (is : List Nat) (ts : List Thread) (s : World)
    (hcomm : ∀ x ∈ todoAll ts, ∀ y ∈ todoAll ts, ∀ z,
      P.kernel x (P.kernel y z) = P.kernel y (P.kernel x z)) :
    applyCalls P (todoAll (joinLoop P is ts s).1) (joinLoop P is ts s).2.mem
      = applyCalls P (todoAll ts) s.mem := by
  induction is generalizing ts s with
  | nil => rfl
  | cons i is ih =>
    simp only [joinLoop]
    obtain ⟨⟨A, pre, B, h1, h2, h3⟩, _⟩ := pthread_join_decomp P i ts s
    obtain ⟨hv, hsub⟩ := decomp_preserves P _ _ A pre B _ _ h1 h2 h3 hcomm
    exact (ih (pthread_join P i ts s).1 (pthread_join P i ts s).2
      (fun x hx y hy z => hcomm x (hsub x hx) y (hsub y hy) z)).trans hv

/-- After the join loop over `0`, `1`, `2` no call of the workers `2`, `1`, `0` is
outstanding. -/
theorem joinLoop_done (P : Platform) (ts : List Thread) (s : World)
    (hid : ts.map Thread.id = [2, 1, 0]) :
    todoAll (joinLoop P [0, 1, 2] ts s).1 = [] := by
  rcases ts with _ | ⟨a, _ | ⟨b, _ | ⟨c, _ | ⟨e, rest⟩⟩⟩⟩ <;>
    simp only [List.map_cons, List.map_nil, List.cons.injEq, and_true, and_false,
      reduceCtorEq] at hid
  obtain ⟨ha, hb, hc⟩ := hid
  simp [joinLoop, pthread_join, ha, hb, hc, todoAll, pendingCalls]

/-- The calls a worker has to make are the calls of the single-threaded run over
the same batches that its partition flags select. -/
theorem pendingCalls_rows (bufs : NV21Buffers) (l : List (RowBatch × Int)) :
    pendingCalls bufs (l.map (fun bf => Step.row bf.1 bf.2))
      = owned (callsFrom bufs (l.map Prod.fst)) (l.map Prod.snd) := by
  induction l generalizing bufs with
  | nil => rfl
  | cons bf l ih =>
    by_cases hf : bf.2 = 0
    · simp [pendingCalls, callsFrom, owned, hf, ih]
    · simp [pendingCalls, callsFrom, owned, hf, ih]

/-- Under a disjoint exact cover the calls selected by the three workers are a
rearrangement of all calls. -/
theorem owned_perm (cs : List KernelCall) (f0 f1 f2 : List Int)
    (hcover : exactCover f0 f1 f2 = true) (hlen : cs.length = f0.length) :
    (owned cs f2 ++ (owned cs f1 ++ owned cs f0)).Perm cs := by
  induction cs generalizing f0 f1 f2 with
  | nil => simp [owned]
  | cons c cs ih =>
    match f0, f1, f2, hcover, hlen with
    | a :: f0, b :: f1, e :: f2, hcover, hlen =>
      simp only [exactCover, Bool.and_eq_true, beq_iff_eq] at hcover
      have hlen' : cs.length = f0.length := by simpa using hlen
      have ih' := ih f0 f1 f2 hcover.2 hlen'
      have hc := hcover.1
      by_cases ha : a = 0 <;> by_cases hb : b = 0 <;> by_cases he : e = 0 <;>
        simp [ha, hb, he, List.count_cons] at hc
      · simp only [owned, ha, hb, he, beq_self_eq_true, if_true]
        have hb' : (b == 0) = false := by simpa using hb
        have he' : (e == 0) = false := by simpa using he
        simp only [hb', he', Bool.false_eq_true, if_false]
        refine List.Perm.trans ?_ (List.Perm.cons c ih')
        have hm := @List.perm_middle _ c (owned cs f2 ++ owned cs f1) (owned cs f0)
        simpa [List.append_assoc] using hm
      · simp only [owned, ha, hb, he, beq_self_eq_true, if_true]
        have ha' : (a == 0) = false := by simpa using ha
        have he' : (e == 0) = false := by simpa using he
        simp only [ha', he', Bool.false_eq_true, if_false]
        refine List.Perm.trans ?_ (List.Perm.cons c ih')
        exact List.perm_middle
      · simp only [owned, ha, hb, he, beq_self_eq_true, if_true]
        have ha' : (a == 0) = false := by simpa using ha
        have hb' : (b == 0) = false := by simpa using hb
        simp only [ha', hb', Bool.false_eq_true, if_false]
        exact List.Perm.cons c ih'

/-- C8 (amended): for a 4:2:2 frame of the declared size that the single decoder
and the three workers' decoders all load, when every worker is handed the
batches of the single-threaded decode, the workers' partition flags form a
disjoint exact cover of the batches, and the kernel calls of distinct batches
commute on memory (as they do when the destination rows of distinct batches do
not overlap), then for every interleaving `sched` of the workers' callbacks the
destination memory returned by `MJPGToNV21_MultiThD` equals the one returned by
`MJPGToNV21`. -/
theorem multiThD_memory_eq_single_thread (P : Platform) (mjpeg_decoder : MJpegDecoder)
    (decoder_th : Nat → MJpegDecoder) (sched : List Nat) (sample : List Nat) (sample_size : Nat)
    (y y_stride uv uv_stride w h dw dh : Int) (s : World) (d : Frame)
    (hsize : sample_size ≠ P.kUnknownDataSize)
    (hload : mjpeg_decoder.LoadFrame sample sample_size = some d)
    (hloads : ∀ i, i < THREAD_NUM → (decoder_th i).LoadFrame sample sample_size = some d)
    (hw : d.GetWidth = w) (hh : d.GetHeight = h) (h422 : isYUV422 d = true)
    (hspawn : ∀ i, i < THREAD_NUM → P.pthread_create i = true)
    (hbatches : ∀ i, i < THREAD_NUM →
      (d.DecodeToCallbackMultiThD i THREAD_NUM dw dh).1.map Prod.fst
        = (d.DecodeToCallback dw dh).1)
    (hcover : exactCover
      ((d.DecodeToCallbackMultiThD 0 THREAD_NUM dw dh).1.map Prod.snd)
      ((d.DecodeToCallbackMultiThD 1 THREAD_NUM dw dh).1.map Prod.snd)
      ((d.DecodeToCallbackMultiThD 2 THREAD_NUM dw dh).1.map Prod.snd) = true)
    (hcomm : ∀ c1 ∈ callsFrom ⟨y, y_stride, uv, uv_stride, dw, dh⟩ (d.DecodeToCallback dw dh).1,
      ∀ c2 ∈ callsFrom ⟨y, y_stride, uv, uv_stride, dw, dh⟩ (d.DecodeToCallback dw dh).1,
      ∀ m, P.kernel c1 (P.kernel c2 m) = P.kernel c2 (P.kernel c1 m)) :
    (MJPGToNV21_MultiThD P decoder_th sched sample sample_size y y_stride uv uv_stride
        w h dw dh s).world.mem
      = (MJPGToNV21 P mjpeg_decoder sample sample_size y y_stride uv uv_stride
        w h dw dh s).2.mem := by
  have h2 : (2 : Nat) < THREAD_NUM := by decide
  have h1 : (1 : Nat) < THREAD_NUM := by decide
  have h0 : (0 : Nat) < THREAD_NUM := by decide
  -- the single-threaded run
  have hsingle : (MJPGToNV21 P mjpeg_decoder sample sample_size y y_stride uv uv_stride
        w h dw dh s).2.mem
      = applyCalls P (callsFrom ⟨y, y_stride, uv, uv_stride, dw, dh⟩ (d.DecodeToCallback dw dh).1)
          s.mem := by
    simp only [MJPGToNV21, hsize, hload, hw, hh, h422, DecodeToCallback, beq_iff_eq, bne_self_eq_false,
      Bool.or_self, Bool.false_eq_true, if_false, if_true]
    rw [foldl_JpegI422ToNV21_mem]
    rfl
  rw [hsingle]
  -- the threads created by the loop
  have hdim : (d.GetWidth != w || d.GetHeight != h) = false := by simp [hw, hh]
  have hsz : (sample_size == P.kUnknownDataSize) = false := by simpa using hsize
  simp only [MJPGToNV21_MultiThD, hsz, creation_order, createLoop, hloads 2 h2, hloads 1 h1,
    hloads 0 h0, hdim, h422, hspawn 2 h2, hspawn 1 h1, hspawn 0 h0, Bool.false_eq_true, if_false,
    if_true, List.nil_append, List.cons_append]
  have hrange : List.range THREAD_NUM = [0, 1, 2] := by decide
  rw [hrange]
  generalize hs0 : ((((((s.emit (Event.LoadFrame sample_size)).emit
    (Event.pthread_create 2 true)).emit (Event.LoadFrame sample_size)).emit
    (Event.pthread_create 1 true)).emit (Event.LoadFrame sample_size)).emit
    (Event.pthread_create 0 true)) = s0
  have hs0mem : s0.mem = s.mem := by rw [← hs0]; rfl
  generalize hts0 : ([⟨2, ⟨y, y_stride, uv, uv_stride, dw, dh⟩,
      DecodeToCallbackMultiThD ⟨2, d, ⟨y, y_stride, uv, uv_stride, dw, dh⟩⟩⟩,
    ⟨1, ⟨y, y_stride, uv, uv_stride, dw, dh⟩,
      DecodeToCallbackMultiThD ⟨1, d, ⟨y, y_stride, uv, uv_stride, dw, dh⟩⟩⟩,
    ⟨0, ⟨y, y_stride, uv, uv_stride, dw, dh⟩,
      DecodeToCallbackMultiThD ⟨0, d, ⟨y, y_stride, uv, uv_stride, dw, dh⟩⟩⟩] : List Thread) = ts0
  -- what the three workers have to do is a rearrangement of the single-threaded calls
  have hids : ts0.map Thread.id = [2, 1, 0] := by rw [← hts0]; rfl
  have htodo : todoAll ts0 =
      owned (callsFrom ⟨y, y_stride, uv, uv_stride, dw, dh⟩ (d.DecodeToCallback dw dh).1)
        ((d.DecodeToCallbackMultiThD 2 THREAD_NUM dw dh).1.map Prod.snd) ++
      (owned (callsFrom ⟨y, y_stride, uv, uv_stride, dw, dh⟩ (d.DecodeToCallback dw dh).1)
        ((d.DecodeToCallbackMultiThD 1 THREAD_NUM dw dh).1.map Prod.snd) ++
       owned (callsFrom ⟨y, y_stride, uv, uv_stride, dw, dh⟩ (d.DecodeToCallback dw dh).1)
        ((d.DecodeToCallbackMultiThD 0 THREAD_NUM dw dh).1.map Prod.snd)) := by
    rw [← hts0]
    simp only [todoAll, List.map_cons, List.map_nil, List.flatten_cons, List.flatten_nil,
      List.append_nil, DecodeToCallbackMultiThD, pendingCalls, pendingCalls_rows,
      hbatches 2 h2, hbatches 1 h1, hbatches 0 h0]
  have hlen : (callsFrom ⟨y, y_stride, uv, uv_stride, dw, dh⟩ (d.DecodeToCallback dw dh).1).length
      = ((d.DecodeToCallbackMultiThD 0 THREAD_NUM dw dh).1.map Prod.snd).length := by
    have hcl : ∀ (bufs : NV21Buffers) (bs : List RowBatch),
        (callsFrom bufs bs).length = bs.length := by
      intro bufs bs
      induction bs generalizing bufs with
      | nil => rfl
      | cons b bs ih => simp [callsFrom, ih]
    rw [hcl, ← hbatches 0 h0]
    simp
  have hperm : (todoAll ts0).Perm
      (callsFrom ⟨y, y_stride, uv, uv_stride, dw, dh⟩ (d.DecodeToCallback dw dh).1) := by
    rw [htodo]
    exact owned_perm _ _ _ _ hcover hlen
  have hcomm0 : ∀ x ∈ todoAll ts0, ∀ y ∈ todoAll ts0, ∀ z,
      P.kernel x (P.kernel y z) = P.kernel y (P.kernel x z) :=
    fun x hx y hy z => hcomm x (hperm.subset hx) y (hperm.subset hy) z
  -- the schedule and the joins perform exactly these calls
  obtain ⟨hv, hsub, hid⟩ := runSchedule_preserves P sched ts0 s0 hcomm0
  have hj := joinLoop_preserves P [0, 1, 2] (runSchedule P sched ts0 s0).1
    (runSchedule P sched ts0 s0).2
    (fun x hx y hy z => hcomm0 x (hsub x hx) y (hsub y hy) z)
  rw [joinLoop_done P _ _ (hid.trans hids)] at hj
  calc (joinLoop P [0, 1, 2] (runSchedule P sched ts0 s0).1 (runSchedule P sched ts0 s0).2).2.mem
      = applyCalls P (todoAll (runSchedule P sched ts0 s0).1)
          (runSchedule P sched ts0 s0).2.mem := hj
    _ = applyCalls P (todoAll ts0) s0.mem := hv
    _ = applyCalls P (todoAll ts0) s.mem := by rw [hs0mem]
    _ = applyCalls P
          (callsFrom ⟨y, y_stride, uv, uv_stride, dw, dh⟩ (d.DecodeToCallback dw dh).1) s.mem :=
        applyCalls_perm P _ _ _ hperm hcomm0

/-- In the concrete scenario with strides `2` the two kernel calls write
different addresses and commute. -/
theorem demo_calls_commute :
    ∀ c1 ∈ callsFrom ⟨0, 2, 100, 2, 2, 2⟩ demoBatches,
    ∀ c2 ∈ callsFrom ⟨0, 2, 100, 2, 2, 2⟩ demoBatches,
    ∀ m, refKernel c1 (refKernel c2 m) = refKernel c2 (refKernel c1 m) := by
  intro c1 h1 c2 h2 m
  have hw : wrapInt32 2 = 2 := by decide
  simp only [callsFrom, demoBatches, List.mem_cons, List.mem_singleton, List.not_mem_nil,
    or_false] at h1 h2
  rcases h1 with rfl | rfl <;> rcases h2 with rfl | rfl
  · rfl
  · funext a
    simp [refKernel, nv21Call, NV21Buffers.advance, writeRow, planeRow, chromaRow, dataAt,
      strideAt, List.range_succ, hw]
    split_ifs <;> first | rfl | omega
  · funext a
    simp [refKernel, nv21Call, NV21Buffers.advance, writeRow, planeRow, chromaRow, dataAt,
      strideAt, List.range_succ, hw]
    split_ifs <;> first | rfl | omega
  · rfl

/-- Instance of C8 (amended): the 2x2 4:2:2 frame with destination strides `2`,
worker `0` owning the first batch and worker `1` the second, under an
interleaving that lets worker `1` start first. -/
theorem multiThD_memory_eq_single_thread_witness :
    (MJPGToNV21_MultiThD demoPlatform
      (fun _ => demoDecoder (demoFrame ColorSpace.kColorSpaceYCbCr 3 1 2 true))
      [1, 0, 2, 1, 1, 2, 0] [] 100 0 2 100 2 2 2 2 2 emptyWorld).world.mem
      = (MJPGToNV21 demoPlatform
          (demoDecoder (demoFrame ColorSpace.kColorSpaceYCbCr 3 1 2 true))
          [] 100 0 2 100 2 2 2 2 2 emptyWorld).2.mem :=
  multiThD_memory_eq_single_thread demoPlatform
    (demoDecoder (demoFrame ColorSpace.kColorSpaceYCbCr 3 1 2 true))
    (fun _ => demoDecoder (demoFrame ColorSpace.kColorSpaceYCbCr 3 1 2 true))
    [1, 0, 2, 1, 1, 2, 0] [] 100 0 2 100 2 2 2 2 2 emptyWorld
    (demoFrame ColorSpace.kColorSpaceYCbCr 3 1 2 true)
    (by decide) rfl (fun _ _ => rfl) rfl rfl (by decide) (fun _ _ => rfl)
    (by
      intro i hi
      have hi3 : i < 3 := hi
      interval_cases i <;> rfl)
    (by decide) demo_calls_commute

/-- C8 (as stated, refuted): on the 2x2 4:2:2 frame, with every worker handed the
batches of the single-threaded decode and partition flags that form a disjoint
exact cover (worker `0` owns the first batch, worker `1` the second), but with
destination strides `0` so that the rows of the two batches overlap, the
interleaving in which worker `1` runs before worker `0` leaves the first batch's
luma byte `10` at address `0`, where the single-threaded run leaves the second
batch's `12`. -/
theorem multiThD_memory_differs_when_rows_overlap :
    isYUV422 (demoFrame ColorSpace.kColorSpaceYCbCr 3 1 2 true) = true ∧
    (∀ i, i < 3 →
      ((demoFrame ColorSpace.kColorSpaceYCbCr 3 1 2 true).DecodeToCallbackMultiThD
        i THREAD_NUM 2 2).1.map Prod.fst
      = ((demoFrame ColorSpace.kColorSpaceYCbCr 3 1 2 true).DecodeToCallback 2 2).1) ∧
    exactCover
      (((demoFrame ColorSpace.kColorSpaceYCbCr 3 1 2 true).DecodeToCallbackMultiThD
        0 THREAD_NUM 2 2).1.map Prod.snd)
      (((demoFrame ColorSpace.kColorSpaceYCbCr 3 1 2 true).DecodeToCallbackMultiThD
        1 THREAD_NUM 2 2).1.map Prod.snd)
      (((demoFrame ColorSpace.kColorSpaceYCbCr 3 1 2 true).DecodeToCallbackMultiThD
        2 THREAD_NUM 2 2).1.map Prod.snd) = true ∧
    (MJPGToNV21_MultiThD demoPlatform
      (fun _ => demoDecoder (demoFrame ColorSpace.kColorSpaceYCbCr 3 1 2 true)) [1, 1, 1]
      [] 100 0 0 100 0 2 2 2 2 emptyWorld).status = 0 ∧
    (MJPGToNV21_MultiThD demoPlatform
      (fun _ => demoDecoder (demoFrame ColorSpace.kColorSpaceYCbCr 3 1 2 true)) [1, 1, 1]
      [] 100 0 0 100 0 2 2 2 2 emptyWorld).world.mem 0 = 10 ∧
    (MJPGToNV21 demoPlatform
      (demoDecoder (demoFrame ColorSpace.kColorSpaceYCbCr 3 1 2 true))
      [] 100 0 0 100 0 2 2 2 2 emptyWorld).1 = 0 ∧
    (MJPGToNV21 demoPlatform
      (demoDecoder (demoFrame ColorSpace.kColorSpaceYCbCr 3 1 2 true))
      [] 100 0 0 100 0 2 2 2 2 emptyWorld).2.mem 0 = 12 := by
  refine ⟨by decide, ?_, by decide, by decide, by decide, by decide, by decide⟩
  intro i hi
  interval_cases i <;> rfl

/-! ## Defects found by evaluation -/

/-- C7 (failing input): `MJPGSize` called with the unknown-size sentinel and a
decoder whose `LoadFrame` succeeds returns `0` and reports the decoder's width
and height; unlike the conversion entry points it has no sentinel test. -/
theorem MJPGSize_accepts_unknown_size :
    MJPGSize (demoDecoder (demoFrame ColorSpace.kColorSpaceYCbCr 3 1 2 true)) []
      demoPlatform.kUnknownDataSize 7 7 = (0, 2, 2) := by
  rfl

/-- C9 (failing input): with a known size, when `LoadFrame` fails for worker `2`
and succeeds (4:2:2, declared size) for workers `1` and `0`, only two threads are
created and `MJPGToNV21_MultiThD` returns `0`. -/
theorem multiThD_ignores_load_failure_of_worker_2 :
    (100 : Nat) ≠ demoPlatform.kUnknownDataSize ∧
    failingDecoder.LoadFrame [] 100 = none ∧
    (MJPGToNV21_MultiThD demoPlatform
      (fun i => if i = 2 then failingDecoder
        else demoDecoder (demoFrame ColorSpace.kColorSpaceYCbCr 3 1 2 true))
      [] [] 100 0 2 100 2 2 2 2 2 emptyWorld).status = 0 ∧
    (MJPGToNV21_MultiThD demoPlatform
      (fun i => if i = 2 then failingDecoder
        else demoDecoder (demoFrame ColorSpace.kColorSpaceYCbCr 3 1 2 true))
      [] [] 100 0 2 100 2 2 2 2 2 emptyWorld).threads.map Thread.id = [1, 0] := by
  refine ⟨by decide, rfl, by decide, by decide⟩

/-- C10 (failing input): with a known size, when every worker loads the 4:2:2
frame and the decoder's `DecodeToCallbackMultiThD` reports failure for every
worker, `MJPGToNV21_MultiThD` still returns `0`. -/
theorem multiThD_ignores_decode_failure :
    (100 : Nat) ≠ demoPlatform.kUnknownDataSize ∧
    (∀ id, ((demoFrame ColorSpace.kColorSpaceYCbCr 3 1 2 false).DecodeToCallbackMultiThD
      id THREAD_NUM 2 2).2 = false) ∧
    (MJPGToNV21_MultiThD demoPlatform
      (fun _ => demoDecoder (demoFrame ColorSpace.kColorSpaceYCbCr 3 1 2 false))
      [] [] 100 0 2 100 2 2 2 2 2 emptyWorld).status = 0 := by
  refine ⟨by decide, fun _ => rfl, by decide⟩

/-! ## Threads left behind by a return from the creation loop -/

/-- C11 (failing input): with a known size, when workers `2` and `1` load the
4:2:2 frame and get their threads, and `pthread_create` fails for worker `0`,
`MJPGToNV21_MultiThD` returns `-1` from inside the creation loop: the log holds
the two successful `pthread_create` and no `pthread_join`, and at return both
threads still have all their actions to perform, among them the kernel call of
worker `1` for the batch it owns. -/
theorem multiThD_spawn_failure_leaves_threads_unjoined :
    (100 : Nat) ≠ spawnFailurePlatform.kUnknownDataSize ∧
    (MJPGToNV21_MultiThD spawnFailurePlatform
      (fun _ => demoDecoder (demoFrame ColorSpace.kColorSpaceYCbCr 3 1 2 true))
      [] [] 100 0 2 100 2 2 2 2 2 emptyWorld).status = -1 ∧
    (MJPGToNV21_MultiThD spawnFailurePlatform
      (fun _ => demoDecoder (demoFrame ColorSpace.kColorSpaceYCbCr 3 1 2 true))
      [] [] 100 0 2 100 2 2 2 2 2 emptyWorld).world.log =
        [Event.LoadFrame 100, Event.pthread_create 2 true,
         Event.LoadFrame 100, Event.pthread_create 1 true,
         Event.LoadFrame 100, Event.pthread_create 0 false] ∧
    (MJPGToNV21_MultiThD spawnFailurePlatform
      (fun _ => demoDecoder (demoFrame ColorSpace.kColorSpaceYCbCr 3 1 2 true))
      [] [] 100 0 2 100 2 2 2 2 2 emptyWorld).threads.map Thread.id = [2, 1] ∧
    (MJPGToNV21_MultiThD spawnFailurePlatform
      (fun _ => demoDecoder (demoFrame ColorSpace.kColorSpaceYCbCr 3 1 2 true))
      [] [] 100 0 2 100 2 2 2 2 2 emptyWorld).threads.map (fun t => t.pending.length)
        = [3, 3] ∧
    todoAll (MJPGToNV21_MultiThD spawnFailurePlatform
      (fun _ => demoDecoder (demoFrame ColorSpace.kColorSpaceYCbCr 3 1 2 true))
      [] [] 100 0 2 100 2 2 2 2 2 emptyWorld).threads =
        [nv21Call ⟨2, 2, 102, 2, 2, 1⟩ [[12, 13], [21], [31]] [2, 1, 1] 1] := by
  refine ⟨by decide, by decide, by decide, by decide, by decide, by decide⟩

/-! ## Cursor advancement of the callbacks -/

/-- Shifting an integer right by one position halves it, rounding down. -/
theorem shiftRight_one (x : Int) : x >>> (1 : Int) = x / 2 := by
  cases x with
  | ofNat m =>
    have h := Int.shiftRight_coe_nat m 1
    simp only [Nat.cast_one] at h
    rw [Int.ofNat_eq_coe, h, Nat.shiftRight_eq_div_pow]
    simp
  | negSucc m =>
    have h := Int.shiftRight_negSucc m 1
    simp only [Nat.cast_one] at h
    rw [h, Nat.shiftRight_eq_div_pow]
    simp only [Int.negSucc_eq, pow_one]
    omega

/-- The shift `(rows + 1) >> 1` is `ceil(rows / 2)`. -/
theorem shift_eq_ceilHalf (rows : Int) : (rows + 1) >>> (1 : Int) = ceilHalf rows := by
  unfold ceilHalf
  symm
  rw [Int.ceil_eq_iff, shiftRight_one]
  have h1 : 2 * ((rows + 1) / 2) ≤ rows + 1 := by omega
  have h2 : rows ≤ 2 * ((rows + 1) / 2) := by omega
  have h1q : (2 : ℚ) * (((rows + 1) / 2 : Int) : ℚ) ≤ (rows : ℚ) + 1 := by exact_mod_cast h1
  have h2q : (rows : ℚ) ≤ 2 * (((rows + 1) / 2 : Int) : ℚ) := by exact_mod_cast h2
  constructor <;> linarith

/-- C14: with a nonzero `skip_flag`, `JpegI422ToNV21_flag` returns the world it was
given (no kernel call is logged and the destination memory is unchanged), and
the cursor it returns is the one returned by the same call with `skip_flag = 0`. -/
theorem skipped_batch_only_advances_cursor (P : Platform) (dest : NV21Buffers)
    (data : List Plane) (strides : List Int) (rows skip_flag : Int) (s : World)
    (hskip : skip_flag ≠ 0) :
    (JpegI422ToNV21_flag P dest data strides rows skip_flag s).2 = s ∧
    (JpegI422ToNV21_flag P dest data strides rows skip_flag s).1
      = (JpegI422ToNV21_flag P dest data strides rows 0 s).1 := by
  simp [JpegI422ToNV21_flag, hskip]

/-- Instance of C14: flag `1` on the first demo batch. -/
theorem skipped_batch_only_advances_cursor_witness :
    (JpegI422ToNV21_flag demoPlatform ⟨0, 2, 100, 2, 2, 2⟩ [[10, 11], [20], [30]] [2, 1, 1]
      1 1 emptyWorld).1 = ⟨2, 2, 102, 2, 2, 1⟩ :=
  (skipped_batch_only_advances_cursor demoPlatform ⟨0, 2, 100, 2, 2, 2⟩ [[10, 11], [20], [30]]
    [2, 1, 1] 1 1 emptyWorld (by decide)).2.trans (by decide)

/-- C18: called with `skip_flag = 0`, `JpegI422ToNV21_flag` returns the same
cursor and the same world (same logged kernel call with the same arguments, same
destination memory) as `JpegI422ToNV21` on the same cursor and batch. -/
theorem flag_zero_is_JpegI422ToNV21 (P : Platform) (dest : NV21Buffers)
    (data : List Plane) (strides : List Int) (rows : Int) (s : World) :
    JpegI422ToNV21_flag P dest data strides rows 0 s
      = JpegI422ToNV21 P dest data strides rows s := by
  simp [JpegI422ToNV21_flag, JpegI422ToNV21]

/-! ## CPU selection of the workers -/

/-- C15 (as stated, refuted): with two configured processors the workers `1` and
`2` request the indices `2` and `3`, both are replaced by `0`, and the two
workers select the same CPU. -/
theorem two_processors_share_cpu :
    (1 : Int) ≤ ({ demoPlatform with nprocessors := 2 } : Platform).nprocessors ∧
    workerCpu { demoPlatform with nprocessors := 2 } 1 = 0 ∧
    workerCpu { demoPlatform with nprocessors := 2 } 2 = 0 := by
  refine ⟨by decide, by decide, by decide⟩

/-- C15 (amended): for every processor count `num >= 1` the CPU index selected
for each of the 3 workers lies in `[0, num)`; the three indices are pairwise
distinct when `num >= 3`, and for `num < 3` the workers `1` and `2` both select
CPU `0`. -/
theorem worker_cpus_in_range_and_distinct_from_three (P : Platform)
    (hnum : 1 ≤ P.nprocessors) :
    (∀ i, i < THREAD_NUM → 0 ≤ workerCpu P i ∧ workerCpu P i < P.nprocessors) ∧
    (3 ≤ P.nprocessors → ∀ i, i < THREAD_NUM → ∀ j, j < THREAD_NUM →
      workerCpu P i = workerCpu P j → i = j) ∧
    (P.nprocessors < 3 → workerCpu P 1 = 0 ∧ workerCpu P 2 = 0) := by
  refine ⟨?_, ?_, ?_⟩
  · intro i hi
    have hi3 : i < 3 := hi
    simp only [workerCpu, set_thread_affinity]
    split_ifs <;> omega
  · intro h3 i hi j hj
    have hi3 : i < 3 := hi
    have hj3 : j < 3 := hj
    simp only [workerCpu, set_thread_affinity]
    split_ifs <;> omega
  · intro h3
    simp only [workerCpu, set_thread_affinity]
    constructor <;> split_ifs <;> omega

/-- Instance of C15 (amended): four processors give the workers the CPUs `1`,
`2`, `3`. -/
theorem worker_cpus_in_range_and_distinct_from_three_witness :
    (1 : Int) ≤ demoPlatform.nprocessors ∧
    0 ≤ workerCpu demoPlatform 2 ∧ workerCpu demoPlatform 2 < demoPlatform.nprocessors :=
  ⟨by decide,
    (worker_cpus_in_range_and_distinct_from_three demoPlatform (by decide)).1 2 (by decide)⟩

/-! ## The size probe -/

/-- C16: `MJPGSize` returns `0` if and only if the decoder loads the frame; it
then returns the decoder's width and height behind the two pointers; when
loading fails it returns `-1` and the values behind the pointers are the ones
found on entry. -/
theorem MJPGSize_result (mjpeg_decoder : MJpegDecoder) (sample : List Nat)
    (sample_size : Nat) (width height : Int) :
    ((MJPGSize mjpeg_decoder sample sample_size width height).1 = 0 ↔
      ∃ d, mjpeg_decoder.LoadFrame sample sample_size = some d) ∧
    (∀ d, mjpeg_decoder.LoadFrame sample sample_size = some d →
      MJPGSize mjpeg_decoder sample sample_size width height = (0, d.GetWidth, d.GetHeight)) ∧
    (mjpeg_decoder.LoadFrame sample sample_size = none →
      MJPGSize mjpeg_decoder sample sample_size width height = (-1, width, height)) := by
  cases hl : mjpeg_decoder.LoadFrame sample sample_size with
  | none => simp [MJPGSize, hl]
  | some d => simp [MJPGSize, hl]

/-- Instance of C16: a failing load leaves the values `7`, `9` in place. -/
theorem MJPGSize_result_witness :
    MJPGSize failingDecoder [] 100 7 9 = (-1, 7, 9) :=
  (MJPGSize_result failingDecoder [] 100 7 9).2.2 rfl

/-! ## Cursors over a whole run -/

/-- The decode driver is a run of callback invocations over the decoder's batches. -/
theorem DecodeToCallback_eq_invokeAll {β : Type} (d : Frame) (name : Callback)
    (fn : β → List Plane → List Int → Int → World → β × World)
    (dest : β) (dst_width dst_height : Int) (s : World) :
    DecodeToCallback d name fn dest dst_width dst_height s =
      ((d.DecodeToCallback dst_width dst_height).2,
        invokeAll name fn (d.DecodeToCallback dst_width dst_height).1
          (dest, s.emit (Event.DecodeToCallback name dst_width dst_height))) := rfl

/-- The cursor after a run of invocations of a callback whose cursor update is
`adv` is the iterated update. -/
theorem invokeAll_cursor {β : Type} (name : Callback)
    (fn : β → List Plane → List Int → Int → World → β × World) (adv : β → Int → β)
    (hfn : ∀ c data strides rows s, (fn c data strides rows s).1 = adv c rows)
    (bs : List RowBatch) (c : β) (s : World) :
    (invokeAll name fn bs (c, s)).1 = bs.foldl (fun c b => adv c b.rows) c := by
  induction bs generalizing c s with
  | nil => rfl
  | cons b bs ih =>
    simp only [invokeAll, List.foldl_cons] at ih ⊢
    have h := hfn c b.data b.strides b.rows (s.emit (Event.Invoke name b.rows))
    rw [← h]
    exact ih _ _

/-- The cursor of a worker after it has performed a sequence of flagged callback
invocations. -/
theorem runSteps_cursor (P : Platform) (id : Nat) (l : List (RowBatch × Int))
    (n : NV21Buffers) (s : World) :
    (runSteps P id (l.map (fun bf => Step.row bf.1 bf.2)) n s).1
      = (l.map Prod.fst).foldl (fun c b => c.advance b.rows) n := by
  induction l generalizing n s with
  | nil => rfl
  | cons bf l ih =>
    simp only [List.map_cons, runSteps, List.foldl_cons]
    rw [ih]
    rfl

/-- The rows of a prefix of non-negative batches do not exceed the total. -/
theorem totalRows_take_le (bs : List RowBatch) (hnn : ∀ b ∈ bs, 0 ≤ b.rows) (k : Nat) :
    0 ≤ totalRows (bs.take k) ∧ totalRows (bs.take k) ≤ totalRows bs := by
  induction bs generalizing k with
  | nil => simp [totalRows]
  | cons b bs ih =>
    cases k with
    | zero =>
      simp only [List.take_zero, totalRows, List.map_nil, List.sum_nil, le_refl, true_and,
        List.map_cons, List.sum_cons]
      have hb := hnn b (List.mem_cons_self _ _)
      have := (ih (fun b' hb' => hnn b' (List.mem_cons_of_mem _ hb')) 0)
      simp only [List.take_zero, totalRows, List.map_nil, List.sum_nil] at this
      omega
    | succ k =>
      have hb := hnn b (List.mem_cons_self _ _)
      have := ih (fun b' hb' => hnn b' (List.mem_cons_of_mem _ hb')) k
      simp only [List.take_succ_cons, totalRows, List.map_cons, List.sum_cons] at this ⊢
      omega

/-- The value `ceil(x / 2)` in integer arithmetic. -/
theorem ceilHalf_eq_div (x : Int) : ceilHalf x = (x + 1) / 2 := by
  rw [← shift_eq_ceilHalf, shiftRight_one]

/-- Summing the per-batch `ceil(rows / 2)` gives at least `ceil(total / 2)`. -/
theorem ceilHalf_totalRows_le (bs : List RowBatch) :
    ceilHalf (totalRows bs) ≤ (bs.map (fun b => ceilHalf b.rows)).sum := by
  induction bs with
  | nil => simp [totalRows, ceilHalf_eq_div]
  | cons b bs ih =>
    simp only [totalRows, List.map_cons, List.sum_cons, ceilHalf_eq_div] at ih ⊢
    omega

/-- When every batch but the last has an even row count, summing the per-batch
`ceil(rows / 2)` gives exactly `ceil(total / 2)`. -/
theorem ceilHalf_totalRows_eq (bs : List RowBatch) (heven : ∀ b ∈ bs.dropLast, 2 ∣ b.rows) :
    (bs.map (fun b => ceilHalf b.rows)).sum = ceilHalf (totalRows bs) := by
  induction bs with
  | nil => simp [totalRows, ceilHalf_eq_div]
  | cons b bs ih =>
    cases bs with
    | nil => simp [totalRows]
    | cons b' rest =>
      have hb : 2 ∣ b.rows := heven b (by simp [List.dropLast])
      have ih' := ih (fun x hx => heven x (by
        simp only [List.dropLast_cons₂, List.mem_cons]
        exact Or.inr hx))
      simp only [totalRows, List.map_cons, List.sum_cons, ceilHalf_eq_div] at ih' ⊢
      omega

/-- Every I420-destination callback updates the cursor by `I420Buffers.advance`. -/
theorem i420_callbacks_advance (P : Platform) :
    ∀ fn ∈ [JpegCopyI420 P, JpegI422ToI420 P, JpegI444ToI420 P, JpegI411ToI420 P,
        JpegI400ToI420 P],
      ∀ (c : I420Buffers) data strides rows s, (fn c data strides rows s).1 = c.advance rows := by
  intro fn hfn
  simp only [List.mem_cons, List.mem_singleton, List.not_mem_nil, or_false] at hfn
  rcases hfn with rfl | rfl | rfl | rfl | rfl <;> intros <;> rfl

/-- Every ARGB callback updates the cursor by `ARGBBuffers.advance`. -/
theorem argb_callbacks_advance (P : Platform) :
    ∀ fn ∈ [JpegI420ToARGB P, JpegI422ToARGB P, JpegI444ToARGB P, JpegI411ToARGB P,
        JpegI400ToARGB P],
      ∀ (c : ARGBBuffers) data strides rows s, (fn c data strides rows s).1 = c.advance rows := by
  intro fn hfn
  simp only [List.mem_cons, List.mem_singleton, List.not_mem_nil, or_false] at hfn
  rcases hfn with rfl | rfl | rfl | rfl | rfl <;> intros <;> rfl

/-! ## Cursor advancement in 32-bit arithmetic -/

/-- Wrap-around leaves an integer of the `int` range unchanged. -/
theorem wrapInt32_of_inInt32 (x : Int) (h : inInt32 x = true) : wrapInt32 x = x := by
  simp only [inInt32, Bool.and_eq_true, decide_eq_true_eq] at h
  unfold wrapInt32
  omega

/-- The code's `(rows + 1) >> 1` is `ceil(rows / 2)` when `rows + 1` does not
overflow. -/
theorem wrapped_shift_eq_ceilHalf (rows : Int) (h : inInt32 (rows + 1) = true) :
    wrapInt32 (rows + 1) >>> (1 : Int) = ceilHalf rows := by
  rw [wrapInt32_of_inInt32 _ h, shift_eq_ceilHalf]

/-- C12 (as stated, refuted): `rows * stride` and `rows + 1` are computed in
32-bit `int`.  With `rows = y_stride = 65536`, and likewise with a batch of 16
rows and a stride of `2^28`, the product is `2^32`, which wraps to `0`: the NV21
and ARGB callbacks leave `y` and `argb` where they were; with 131072 rows and
`u_stride = 65536` an I420 callback leaves `u` where it was; and at
`rows = 2147483647` the code's `(rows + 1) >> 1` is `-2^30`, not
`ceil(rows / 2) = 2^30`. -/
theorem callbacks_wrap_on_int_overflow :
    (JpegI422ToNV21 demoPlatform ⟨0, 65536, 100, 65536, 2, 2⟩ [] [] 65536 emptyWorld).1.y = 0 ∧
    (0 : Int) + 65536 * 65536 = 4294967296 ∧
    (JpegI422ToNV21_flag demoPlatform ⟨0, 268435456, 100, 2, 2, 16⟩ [] [] 16 1 emptyWorld).1.y
      = 0 ∧
    (0 : Int) + 16 * 268435456 = 4294967296 ∧
    (JpegI420ToARGB demoPlatform ⟨0, 65536, 2, 2⟩ [] [] 65536 emptyWorld).1.argb = 0 ∧
    (JpegCopyI420 demoPlatform ⟨0, 2, 100, 65536, 200, 1, 2, 2⟩ [] [] 131072 emptyWorld).1.u
      = 100 ∧
    (100 : Int) + ceilHalf 131072 * 65536 = 4294967396 ∧
    wrapInt32 (2147483647 + 1) >>> (1 : Int) = -1073741824 ∧
    ceilHalf 2147483647 = 1073741824 := by
  refine ⟨by decide, by decide, by decide, by decide, by decide, by decide, ?_, by decide, ?_⟩
  · rw [ceilHalf_eq_div]
    decide
  · rw [ceilHalf_eq_div]
    decide

/-- C12 (amended): for a batch of `rows >= 0` whose `rows + 1` does not overflow
`int`, the code's `(rows + 1) >> 1` is `ceil(rows / 2)`; each I420-destination
callback moves `y` by `rows * y_stride` and `u`, `v` by `ceil(rows / 2)` times
their stride, both NV21 callbacks (the flag variant for every flag) move `y` and
`uv` by `rows` times their stride, and each ARGB callback moves `argb` by
`rows * argb_stride`, each pointer provided its product lies in the range of
`int`; every callback leaves the strides and `w` as they were. -/
theorem callbacks_advance_pointers (P : Platform) (d : I420Buffers) (n : NV21Buffers)
    (a : ARGBBuffers) (data : List Plane) (strides : List Int) (rows skip_flag : Int)
    (s : World) (_hrows : 0 ≤ rows) (hrows1 : inInt32 (rows + 1) = true) :
    wrapInt32 (rows + 1) >>> (1 : Int) = ceilHalf rows ∧
    (∀ fn ∈ [JpegCopyI420 P, JpegI422ToI420 P, JpegI444ToI420 P, JpegI411ToI420 P,
        JpegI400ToI420 P],
      (inInt32 (rows * d.y_stride) = true →
        (fn d data strides rows s).1.y = d.y + rows * d.y_stride) ∧
      (inInt32 (ceilHalf rows * d.u_stride) = true →
        (fn d data strides rows s).1.u = d.u + ceilHalf rows * d.u_stride) ∧
      (inInt32 (ceilHalf rows * d.v_stride) = true →
        (fn d data strides rows s).1.v = d.v + ceilHalf rows * d.v_stride) ∧
      (fn d data strides rows s).1.y_stride = d.y_stride ∧
      (fn d data strides rows s).1.u_stride = d.u_stride ∧
      (fn d data strides rows s).1.v_stride = d.v_stride ∧
      (fn d data strides rows s).1.w = d.w) ∧
    (∀ fn ∈ [JpegI422ToNV21 P,
        fun c data strides rows s => JpegI422ToNV21_flag P c data strides rows skip_flag s],
      (inInt32 (rows * n.y_stride) = true →
        (fn n data strides rows s).1.y = n.y + rows * n.y_stride) ∧
      (inInt32 (rows * n.uv_stride) = true →
        (fn n data strides rows s).1.uv = n.uv + rows * n.uv_stride) ∧
      (fn n data strides rows s).1.y_stride = n.y_stride ∧
      (fn n data strides rows s).1.uv_stride = n.uv_stride ∧
      (fn n data strides rows s).1.w = n.w) ∧
    (∀ fn ∈ [JpegI420ToARGB P, JpegI422ToARGB P, JpegI444ToARGB P, JpegI411ToARGB P,
        JpegI400ToARGB P],
      (inInt32 (rows * a.argb_stride) = true →
        (fn a data strides rows s).1.argb = a.argb + rows * a.argb_stride) ∧
      (fn a data strides rows s).1.argb_stride = a.argb_stride ∧
      (fn a data strides rows s).1.w = a.w) := by
  have hc := wrapped_shift_eq_ceilHalf rows hrows1
  refine ⟨hc, ?_, ?_, ?_⟩
  · intro fn hfn
    have hadv := i420_callbacks_advance P fn hfn d data strides rows s
    rw [hadv]
    simp only [I420Buffers.advance, hc, and_true]
    exact ⟨fun h => by rw [wrapInt32_of_inInt32 _ h],
      fun h => by rw [wrapInt32_of_inInt32 _ h], fun h => by rw [wrapInt32_of_inInt32 _ h]⟩
  · intro fn hfn
    simp only [List.mem_cons, List.mem_singleton, List.not_mem_nil, or_false] at hfn
    rcases hfn with rfl | rfl
    · simp only [JpegI422ToNV21, NV21Buffers.advance, and_true]
      exact ⟨fun h => by rw [wrapInt32_of_inInt32 _ h],
        fun h => by rw [wrapInt32_of_inInt32 _ h]⟩
    · simp only [JpegI422ToNV21_flag, NV21Buffers.advance, and_true]
      exact ⟨fun h => by rw [wrapInt32_of_inInt32 _ h],
        fun h => by rw [wrapInt32_of_inInt32 _ h]⟩
  · intro fn hfn
    have hadv := argb_callbacks_advance P fn hfn a data strides rows s
    rw [hadv]
    simp only [ARGBBuffers.advance, and_true]
    exact fun h => by rw [wrapInt32_of_inInt32 _ h]

/-- Instance of C12 (amended): a batch of 3 rows moves `u` of an I420 cursor by
`ceil(3 / 2)` strides of `4`. -/
theorem callbacks_advance_pointers_witness :
    (0 : Int) ≤ 3 ∧ inInt32 (3 + 1) = true ∧ inInt32 (ceilHalf 3 * 4) = true ∧
    (JpegI422ToI420 demoPlatform ⟨0, 8, 100, 4, 200, 4, 8, 6⟩ [] [] 3 emptyWorld).1.u
      = 100 + ceilHalf 3 * 4 :=
  have hu : inInt32 (ceilHalf 3 * 4) = true := by rw [ceilHalf_eq_div]; decide
  ⟨by decide, by decide, hu,
    ((callbacks_advance_pointers demoPlatform ⟨0, 8, 100, 4, 200, 4, 8, 6⟩ ⟨0, 8, 100, 8, 8, 6⟩
      ⟨0, 32, 8, 6⟩ [] [] 3 0 emptyWorld (by decide) (by decide)).2.1
      (JpegI422ToI420 demoPlatform) (by simp)).2.1 hu⟩

/-! ## Remaining rows over a whole run -/

/-- The remaining-row field after a run, for a cursor update that lowers the
field by the row count in `int`, when no intermediate value leaves the range of
`int`. -/
theorem foldl_remaining {β : Type} (adv : β → Int → β) (hf : β → Int)
    (hadv : ∀ c r, hf (adv c r) = wrapInt32 (hf c - r)) (bs : List RowBatch) (c : β)
    (hrange : ∀ k, inInt32 (hf c - totalRows (bs.take k)) = true) :
    hf (bs.foldl (fun c b => adv c b.rows) c) = hf c - totalRows bs := by
  induction bs generalizing c with
  | nil => simp [totalRows]
  | cons b bs ih =>
    have h1 : hf (adv c b.rows) = hf c - b.rows := by
      rw [hadv, wrapInt32_of_inInt32]
      have := hrange 1
      simpa [totalRows] using this
    rw [List.foldl_cons, ih (adv c b.rows), h1]
    · simp only [totalRows, List.map_cons, List.sum_cons]
      ring
    · intro k
      rw [h1]
      have := hrange (k + 1)
      simp only [List.take_succ_cons, totalRows, List.map_cons, List.sum_cons] at this
      simp only [totalRows]
      rw [show hf c - b.rows - (List.map RowBatch.rows (List.take k bs)).sum
        = hf c - (b.rows + (List.map RowBatch.rows (List.take k bs)).sum) by ring]
      exact this

/-- For non-negative row counts that sum to an `int` value, every intermediate
remaining-row value lies between `0` and that value. -/
theorem remaining_in_range (bs : List RowBatch) (h0 : Int) (hnn : ∀ b ∈ bs, 0 ≤ b.rows)
    (hin : inInt32 h0 = true) (hsum : totalRows bs = h0) (k : Nat) :
    0 ≤ h0 - totalRows (bs.take k) ∧ inInt32 (h0 - totalRows (bs.take k)) = true := by
  have h := totalRows_take_le bs hnn k
  simp only [inInt32, Bool.and_eq_true, decide_eq_true_eq] at hin ⊢
  omega

/-- A range condition on all prefixes of a run holds for the prefixes of each of
its prefixes. -/
theorem range_of_take (bs : List RowBatch) (h0 : Int)
    (hrange : ∀ k, inInt32 (h0 - totalRows (bs.take k)) = true) (k j : Nat) :
    inInt32 (h0 - totalRows ((bs.take k).take j)) = true := by
  rw [List.take_take]
  exact hrange _

/-- C13 (as stated, refuted): `h -= rows` is computed in 32-bit `int`.  From a
cursor with `h = 0`, batches of `2147483647` and `2` rows leave `h = 2147483647`,
not `0 - 2147483649`; and from a cursor whose caller-supplied target height is
`-2147483648`, one batch of 16 rows leaves `h = 2147483632`, not `-2147483664`. -/
theorem remaining_rows_wrap_on_int_overflow :
    (∀ b ∈ ([⟨[], [], 2147483647⟩, ⟨[], [], 2⟩] : List RowBatch), 0 ≤ b.rows) ∧
    (invokeAll Callback.JpegCopyI420 (JpegCopyI420 demoPlatform)
      [⟨[], [], 2147483647⟩, ⟨[], [], 2⟩]
      ((⟨0, 2, 100, 1, 200, 1, 2, 0⟩ : I420Buffers), emptyWorld)).1.h = 2147483647 ∧
    (0 : Int) - totalRows [⟨[], [], 2147483647⟩, ⟨[], [], 2⟩] = -2147483649 ∧
    (invokeAll Callback.JpegI422ToNV21 (JpegI422ToNV21 demoPlatform) [⟨[], [], 16⟩]
      ((⟨0, 2, 100, 2, 2, -2147483648⟩ : NV21Buffers), emptyWorld)).1.h = 2147483632 ∧
    (-2147483648 : Int) - totalRows [⟨[], [], 16⟩] = -2147483664 := by
  refine ⟨by decide, by decide, by decide, by decide, by decide⟩

/-- C13 (amended): for every callback and every run of invocations in which no
intermediate value of `h` minus the rows consumed so far leaves the range of
`int`, the remaining-row field after the run is its initial value minus the sum
of the batch row counts; hence, when the row counts are non-negative and sum to
the initial value (the target height, an `int`), the field is `>= 0` after every
invocation (after every prefix of the run) and `0` at the end.  The flag variant
is run by a worker over flagged batches. -/
theorem remaining_rows_after_run (P : Platform) (d : I420Buffers) (n : NV21Buffers)
    (a : ARGBBuffers) (name : Callback) (id : Nat) (bs : List RowBatch)
    (l : List (RowBatch × Int)) (s : World) :
    (((∀ k, inInt32 (d.h - totalRows (bs.take k)) = true) →
        ∀ fn ∈ [JpegCopyI420 P, JpegI422ToI420 P, JpegI444ToI420 P, JpegI411ToI420 P,
          JpegI400ToI420 P],
        (invokeAll name fn bs (d, s)).1.h = d.h - totalRows bs) ∧
      ((∀ k, inInt32 (n.h - totalRows (bs.take k)) = true) →
        (invokeAll name (JpegI422ToNV21 P) bs (n, s)).1.h = n.h - totalRows bs) ∧
      ((∀ k, inInt32 (n.h - totalRows ((l.map Prod.fst).take k)) = true) →
        (runSteps P id (l.map (fun bf => Step.row bf.1 bf.2)) n s).1.h
          = n.h - totalRows (l.map Prod.fst)) ∧
      ((∀ k, inInt32 (a.h - totalRows (bs.take k)) = true) →
        ∀ fn ∈ [JpegI420ToARGB P, JpegI422ToARGB P, JpegI444ToARGB P, JpegI411ToARGB P,
          JpegI400ToARGB P],
        (invokeAll name fn bs (a, s)).1.h = a.h - totalRows bs)) ∧
    ((∀ b ∈ bs, 0 ≤ b.rows) →
      (inInt32 d.h = true → totalRows bs = d.h →
        ∀ fn ∈ [JpegCopyI420 P, JpegI422ToI420 P, JpegI444ToI420 P, JpegI411ToI420 P,
          JpegI400ToI420 P],
        (∀ k, 0 ≤ (invokeAll name fn (bs.take k) (d, s)).1.h) ∧
        (invokeAll name fn bs (d, s)).1.h = 0) ∧
      (inInt32 n.h = true → totalRows bs = n.h →
        (∀ k, 0 ≤ (invokeAll name (JpegI422ToNV21 P) (bs.take k) (n, s)).1.h) ∧
        (invokeAll name (JpegI422ToNV21 P) bs (n, s)).1.h = 0) ∧
      (inInt32 a.h = true → totalRows bs = a.h →
        ∀ fn ∈ [JpegI420ToARGB P, JpegI422ToARGB P, JpegI444ToARGB P, JpegI411ToARGB P,
          JpegI400ToARGB P],
        (∀ k, 0 ≤ (invokeAll name fn (bs.take k) (a, s)).1.h) ∧
        (invokeAll name fn bs (a, s)).1.h = 0)) ∧
    ((∀ bf ∈ l, 0 ≤ bf.1.rows) → inInt32 n.h = true → totalRows (l.map Prod.fst) = n.h →
      (∀ k, 0 ≤ (runSteps P id ((l.take k).map (fun bf => Step.row bf.1 bf.2)) n s).1.h) ∧
      (runSteps P id (l.map (fun bf => Step.row bf.1 bf.2)) n s).1.h = 0) := by
  have h420 : ∀ fn ∈ [JpegCopyI420 P, JpegI422ToI420 P, JpegI444ToI420 P, JpegI411ToI420 P,
      JpegI400ToI420 P], ∀ bs' : List RowBatch,
      (∀ k, inInt32 (d.h - totalRows (bs'.take k)) = true) →
      (invokeAll name fn bs' (d, s)).1.h = d.h - totalRows bs' := by
    intro fn hfn bs' hr
    rw [invokeAll_cursor name fn I420Buffers.advance (i420_callbacks_advance P fn hfn)]
    exact foldl_remaining I420Buffers.advance I420Buffers.h (fun _ _ => rfl) bs' d hr
  have hnv : ∀ bs' : List RowBatch,
      (∀ k, inInt32 (n.h - totalRows (bs'.take k)) = true) →
      (invokeAll name (JpegI422ToNV21 P) bs' (n, s)).1.h = n.h - totalRows bs' := by
    intro bs' hr
    rw [invokeAll_cursor name (JpegI422ToNV21 P) NV21Buffers.advance (fun _ _ _ _ _ => rfl)]
    exact foldl_remaining NV21Buffers.advance NV21Buffers.h (fun _ _ => rfl) bs' n hr
  have hflag : ∀ l' : List (RowBatch × Int),
      (∀ k, inInt32 (n.h - totalRows ((l'.map Prod.fst).take k)) = true) →
      (runSteps P id (l'.map (fun bf => Step.row bf.1 bf.2)) n s).1.h
        = n.h - totalRows (l'.map Prod.fst) := by
    intro l' hr
    rw [runSteps_cursor]
    exact foldl_remaining NV21Buffers.advance NV21Buffers.h (fun _ _ => rfl) _ n hr
  have hargb : ∀ fn ∈ [JpegI420ToARGB P, JpegI422ToARGB P, JpegI444ToARGB P, JpegI411ToARGB P,
      JpegI400ToARGB P], ∀ bs' : List RowBatch,
      (∀ k, inInt32 (a.h - totalRows (bs'.take k)) = true) →
      (invokeAll name fn bs' (a, s)).1.h = a.h - totalRows bs' := by
    intro fn hfn bs' hr
    rw [invokeAll_cursor name fn ARGBBuffers.advance (argb_callbacks_advance P fn hfn)]
    exact foldl_remaining ARGBBuffers.advance ARGBBuffers.h (fun _ _ => rfl) bs' a hr
  refine ⟨⟨fun hr fn hfn => h420 fn hfn bs hr, fun hr => hnv bs hr, fun hr => hflag l hr,
      fun hr fn hfn => hargb fn hfn bs hr⟩,
    fun hnn => ⟨fun hin hsum fn hfn => ?_, fun hin hsum => ?_, fun hin hsum fn hfn => ?_⟩,
    fun hnn hin hsum => ?_⟩
  · have hr := fun k => (remaining_in_range bs d.h hnn hin hsum k).2
    refine ⟨fun k => ?_, ?_⟩
    · rw [h420 fn hfn (bs.take k) (range_of_take bs d.h hr k)]
      exact (remaining_in_range bs d.h hnn hin hsum k).1
    · rw [h420 fn hfn bs hr]
      omega
  · have hr := fun k => (remaining_in_range bs n.h hnn hin hsum k).2
    refine ⟨fun k => ?_, ?_⟩
    · rw [hnv (bs.take k) (range_of_take bs n.h hr k)]
      exact (remaining_in_range bs n.h hnn hin hsum k).1
    · rw [hnv bs hr]
      omega
  · have hr := fun k => (remaining_in_range bs a.h hnn hin hsum k).2
    refine ⟨fun k => ?_, ?_⟩
    · rw [hargb fn hfn (bs.take k) (range_of_take bs a.h hr k)]
      exact (remaining_in_range bs a.h hnn hin hsum k).1
    · rw [hargb fn hfn bs hr]
      omega
  · have hnn' : ∀ b ∈ l.map Prod.fst, 0 ≤ b.rows := by
      intro b hb
      obtain ⟨bf, hbf, rfl⟩ := List.mem_map.mp hb
      exact hnn bf hbf
    have hr := fun k => (remaining_in_range (l.map Prod.fst) n.h hnn' hin hsum k).2
    refine ⟨fun k => ?_, ?_⟩
    · rw [hflag (l.take k) (by
        intro j
        rw [List.map_take]
        exact range_of_take (l.map Prod.fst) n.h hr k j)]
      rw [List.map_take]
      exact (remaining_in_range (l.map Prod.fst) n.h hnn' hin hsum k).1
    · rw [hflag l hr]
      omega

/-- Instance of C13 (amended): the two one-row batches of the 2x2 frame leave
`h = 0` in an NV21 cursor that starts with `h = 2`. -/
theorem remaining_rows_after_run_witness :
    (∀ b ∈ demoBatches, 0 ≤ b.rows) ∧ inInt32 2 = true ∧ totalRows demoBatches = 2 ∧
    (invokeAll Callback.JpegI422ToNV21 (JpegI422ToNV21 demoPlatform) demoBatches
      ((⟨0, 2, 100, 2, 2, 2⟩ : NV21Buffers), emptyWorld)).1.h = 0 :=
  ⟨by decide, by decide, by decide,
    ((remaining_rows_after_run demoPlatform ⟨0, 2, 100, 1, 200, 1, 2, 2⟩ ⟨0, 2, 100, 2, 2, 2⟩
      ⟨0, 8, 2, 2⟩ Callback.JpegI422ToNV21 0 demoBatches [] emptyWorld).2.1
      (by decide)).2.1 (by decide) (by decide) |>.2⟩

/-! ## Chroma cursors over a whole run -/

/-- The chroma pointers after iterating the I420 cursor update, when for every
batch `rows + 1` and the two chroma offsets lie in the range of `int`. -/
theorem foldl_advance_chroma (bs : List RowBatch) (d : I420Buffers)
    (hrange : ∀ b ∈ bs, inInt32 (b.rows + 1) = true ∧
      inInt32 (ceilHalf b.rows * d.u_stride) = true ∧
      inInt32 (ceilHalf b.rows * d.v_stride) = true) :
    (bs.foldl (fun c b => c.advance b.rows) d).u
      = d.u + (bs.map (fun b => ceilHalf b.rows)).sum * d.u_stride ∧
    (bs.foldl (fun c b => c.advance b.rows) d).v
      = d.v + (bs.map (fun b => ceilHalf b.rows)).sum * d.v_stride := by
  induction bs generalizing d with
  | nil => simp
  | cons b bs ih =>
    obtain ⟨h1, hu, hv⟩ := hrange b (List.mem_cons_self _ _)
    have ih' := ih (d.advance b.rows)
      (fun b' hb' => hrange b' (List.mem_cons_of_mem _ hb'))
    have hsu : (d.advance b.rows).u_stride = d.u_stride := rfl
    have hsv : (d.advance b.rows).v_stride = d.v_stride := rfl
    have hdu : (d.advance b.rows).u = d.u + ceilHalf b.rows * d.u_stride := by
      simp only [I420Buffers.advance, wrapped_shift_eq_ceilHalf _ h1]
      rw [wrapInt32_of_inInt32 _ hu]
    have hdv : (d.advance b.rows).v = d.v + ceilHalf b.rows * d.v_stride := by
      simp only [I420Buffers.advance, wrapped_shift_eq_ceilHalf _ h1]
      rw [wrapInt32_of_inInt32 _ hv]
    rw [List.foldl_cons, ih'.1, ih'.2, hsu, hsv, hdu, hdv]
    simp only [List.map_cons, List.sum_cons]
    constructor <;> ring

/-- C17 (as stated, refuted): the chroma offset `((rows + 1) >> 1) * stride` is
computed in 32-bit `int`.  One batch of 16 rows with the caller-supplied
`u_stride = 2^29`, and likewise one batch of 131072 rows with `u_stride = 65536`,
gives an offset of `2^32`, which wraps to `0`: `u` ends where it started, not
`ceil(totalRows / 2)` strides past its start. -/
theorem chroma_cursor_wraps_on_int_overflow :
    (∀ b ∈ ([⟨[], [], 16⟩] : List RowBatch), 0 ≤ b.rows) ∧
    (∀ b ∈ ([⟨[], [], 16⟩] : List RowBatch).dropLast, 2 ∣ b.rows) ∧
    (invokeAll Callback.JpegCopyI420 (JpegCopyI420 demoPlatform) [⟨[], [], 16⟩]
      ((⟨0, 2, 100, 536870912, 200, 1, 2, 16⟩ : I420Buffers), emptyWorld)).1.u = 100 ∧
    (100 : Int) + ceilHalf (totalRows [⟨[], [], 16⟩]) * 536870912 = 4294967396 ∧
    (invokeAll Callback.JpegI422ToI420 (JpegI422ToI420 demoPlatform) [⟨[], [], 131072⟩]
      ((⟨0, 2, 100, 65536, 200, 1, 2, 131072⟩ : I420Buffers), emptyWorld)).1.u = 100 ∧
    (100 : Int) + ceilHalf (totalRows [⟨[], [], 131072⟩]) * 65536 = 4294967396 := by
  refine ⟨by decide, by decide, by decide, ?_, by decide, ?_⟩
  · rw [ceilHalf_eq_div]
    decide
  · rw [ceilHalf_eq_div]
    decide

/-- C17 (amended): for batches with non-negative row counts handed to an
I420-destination callback, such that for every batch `rows + 1` and the chroma
offsets `ceil(rows / 2) * u_stride`, `ceil(rows / 2) * v_stride` lie in the range
of `int`, `u` and `v` end `sum of ceil(rows_i / 2)` strides past their start;
that sum is at least `ceil(totalRows / 2)`, and equals it when every batch except
possibly the last has an even row count, in which case `u` and `v` end exactly
`ceil(totalRows / 2)` strides past their start. -/
theorem chroma_advance_over_run (P : Platform) (d : I420Buffers) (name : Callback)
    (bs : List RowBatch) (s : World) (_hnn : ∀ b ∈ bs, 0 ≤ b.rows)
    (hrange : ∀ b ∈ bs, inInt32 (b.rows + 1) = true ∧
      inInt32 (ceilHalf b.rows * d.u_stride) = true ∧
      inInt32 (ceilHalf b.rows * d.v_stride) = true) :
    (∀ fn ∈ [JpegCopyI420 P, JpegI422ToI420 P, JpegI444ToI420 P, JpegI411ToI420 P,
        JpegI400ToI420 P],
      (invokeAll name fn bs (d, s)).1.u
        = d.u + (bs.map (fun b => ceilHalf b.rows)).sum * d.u_stride ∧
      (invokeAll name fn bs (d, s)).1.v
        = d.v + (bs.map (fun b => ceilHalf b.rows)).sum * d.v_stride) ∧
    ceilHalf (totalRows bs) ≤ (bs.map (fun b => ceilHalf b.rows)).sum ∧
    ((∀ b ∈ bs.dropLast, 2 ∣ b.rows) →
      (bs.map (fun b => ceilHalf b.rows)).sum = ceilHalf (totalRows bs) ∧
      ∀ fn ∈ [JpegCopyI420 P, JpegI422ToI420 P, JpegI444ToI420 P, JpegI411ToI420 P,
          JpegI400ToI420 P],
        (invokeAll name fn bs (d, s)).1.u = d.u + ceilHalf (totalRows bs) * d.u_stride ∧
        (invokeAll name fn bs (d, s)).1.v = d.v + ceilHalf (totalRows bs) * d.v_stride) := by
  have hcur : ∀ fn ∈ [JpegCopyI420 P, JpegI422ToI420 P, JpegI444ToI420 P, JpegI411ToI420 P,
      JpegI400ToI420 P],
      (invokeAll name fn bs (d, s)).1.u
        = d.u + (bs.map (fun b => ceilHalf b.rows)).sum * d.u_stride ∧
      (invokeAll name fn bs (d, s)).1.v
        = d.v + (bs.map (fun b => ceilHalf b.rows)).sum * d.v_stride := by
    intro fn hfn
    rw [invokeAll_cursor name fn I420Buffers.advance (i420_callbacks_advance P fn hfn)]
    exact foldl_advance_chroma bs d hrange
  refine ⟨hcur, ceilHalf_totalRows_le bs, fun heven => ?_⟩
  have hsum := ceilHalf_totalRows_eq bs heven
  refine ⟨hsum, fun fn hfn => ?_⟩
  rw [← hsum]
  exact hcur fn hfn

/-- Instance of C17 (amended): batches of 2, 4 and 3 rows move `u` by
`ceil(9 / 2)` strides of `4`. -/
theorem chroma_advance_over_run_witness :
    (∀ b ∈ ([⟨[], [], 2⟩, ⟨[], [], 4⟩, ⟨[], [], 3⟩] : List RowBatch), 0 ≤ b.rows) ∧
    (∀ b ∈ ([⟨[], [], 2⟩, ⟨[], [], 4⟩, ⟨[], [], 3⟩] : List RowBatch),
      inInt32 (b.rows + 1) = true ∧ inInt32 (ceilHalf b.rows * 4) = true ∧
      inInt32 (ceilHalf b.rows * 4) = true) ∧
    (∀ b ∈ ([⟨[], [], 2⟩, ⟨[], [], 4⟩, ⟨[], [], 3⟩] : List RowBatch).dropLast, 2 ∣ b.rows) ∧
    (invokeAll Callback.JpegI422ToI420 (JpegI422ToI420 demoPlatform)
      [⟨[], [], 2⟩, ⟨[], [], 4⟩, ⟨[], [], 3⟩]
      ((⟨0, 8, 100, 4, 200, 4, 8, 9⟩ : I420Buffers), emptyWorld)).1.u
      = 100 + ceilHalf (totalRows [⟨[], [], 2⟩, ⟨[], [], 4⟩, ⟨[], [], 3⟩]) * 4 :=
  have hr : ∀ b ∈ ([⟨[], [], 2⟩, ⟨[], [], 4⟩, ⟨[], [], 3⟩] : List RowBatch),
      inInt32 (b.rows + 1) = true ∧ inInt32 (ceilHalf b.rows * 4) = true ∧
      inInt32 (ceilHalf b.rows * 4) = true := by
    intro b hb
    simp only [List.mem_cons, List.mem_singleton, List.not_mem_nil, or_false] at hb
    rcases hb with rfl | rfl | rfl <;> simp only [ceilHalf_eq_div] <;> decide
  ⟨by decide, hr, by decide,
    (((chroma_advance_over_run demoPlatform ⟨0, 8, 100, 4, 200, 4, 8, 9⟩
      Callback.JpegI422ToI420 [⟨[], [], 2⟩, ⟨[], [], 4⟩, ⟨[], [], 3⟩] emptyWorld
      (by decide) hr).2.2 (by decide)).2 (JpegI422ToI420 demoPlatform) (by simp)).1⟩

end libyuv
